import Mathlib

/-!
Verification development for the DiligentCore device-object archive
(writer `ArchiverImpl`, reader `DeviceObjectArchiveBase`, tri-mode
serializer).  Definitions are shallow embeddings of the C++ sources in
`Graphics/Archiver/src/ArchiverImpl.cpp` and
`Graphics/GraphicsEngine/src/DeviceObjectArchiveBase.cpp`.  Components whose
implementation is not part of the sources at hand (the `Serializer` /
`PSOSerializer` templates, the archive layout structs declared in headers,
backend shader patchers and device factories) are modelled from the
specification and marked as such in their doc comments.
-/

set_option autoImplicit false
set_option linter.unusedVariables false
set_option linter.unnecessarySimpa false

namespace DiligentCore

/-! ### Tri-mode serializer (modelled from the spec)

Modelled from the spec: the `Serializer<Mode>` / `PSOSerializer<Mode>`
templates are declared in headers that are not among the sources; §4.A of the
spec fixes the wire grammar: fixed-width little-endian unsigned integers
(enums at their underlying width), strings as a 32-bit
length-including-terminator followed by raw bytes (a null pointer is the
distinguished empty sentinel of length 0), arrays as a 32-bit count followed
by element bytes.  A schema is a sequence of such fields. -/

/-- Field types of the serializer wire grammar. -/
inductive SType
  | u8
  | u16
  | u32
  | u64
  | str
  | arr (elem : SType)
deriving DecidableEq, Repr

/-- Field values of the serializer wire grammar.  A string value of `none`
models a null `const char*` (the distinguished empty sentinel). -/
inductive SVal
  | u8 (v : Nat)
  | u16 (v : Nat)
  | u32 (v : Nat)
  | u64 (v : Nat)
  | str (s : Option (List Nat))
  | arr (elems : List SVal)
deriving Repr

/-- Little-endian encoding of `v` into `w` bytes (truncating above `2^(8w)`). -/
def bytesLE : Nat → Nat → List Nat
  | 0, _ => []
  | w + 1, v => v % 256 :: bytesLE w (v / 256)

/-- Little-endian decoding of the first `w` bytes of a byte list. -/
def decodeLE : Nat → List Nat → Nat
  | 0, _ => 0
  | _ + 1, [] => 0
  | w + 1, b :: bs => b % 256 + 256 * decodeLE w bs

/-- Modulus of a 32-bit unsigned integer. -/
def u32Mod : Nat := 4294967296

mutual

/-- Measure mode: the exact number of bytes a field would occupy. -/
def serMeasure : SVal → Nat
  | .u8 _ => 1
  | .u16 _ => 2
  | .u32 _ => 4
  | .u64 _ => 8
  | .str none => 4
  | .str (some s) => 4 + (s.length + 1)
  | .arr es => 4 + serMeasureList es

/-- Measure mode over a field sequence (a schema applied to its values). -/
def serMeasureList : List SVal → Nat
  | [] => 0
  | v :: vs => serMeasure v + serMeasureList vs

end

mutual

/-- Write mode: the bytes a field emits. -/
def serWrite : SVal → List Nat
  | .u8 v => bytesLE 1 v
  | .u16 v => bytesLE 2 v
  | .u32 v => bytesLE 4 v
  | .u64 v => bytesLE 8 v
  | .str none => bytesLE 4 0
  | .str (some s) => bytesLE 4 (s.length + 1) ++ (s ++ [0])
  | .arr es => bytesLE 4 es.length ++ serWriteList es

/-- Write mode over a field sequence. -/
def serWriteList : List SVal → List Nat
  | [] => []
  | v :: vs => serWrite v ++ serWriteList vs

end

/-- Read a `w`-byte little-endian unsigned integer off the front of a buffer;
`none` when the buffer is shorter than `w` (read past buffer end). -/
def readUint (w : Nat) (bs : List Nat) : Option (Nat × List Nat) :=
  if w ≤ bs.length then some (decodeLE w bs, bs.drop w) else none

mutual

/-- Read mode: extract a field of type `t` from the front of a buffer,
returning the value and the remaining bytes; `none` signals a read past the
buffer end (`corrupt-archive`). -/
def serRead (t : SType) (bs : List Nat) : Option (SVal × List Nat) :=
  match t with
  | .u8 => (readUint 1 bs).map fun p => (.u8 p.1, p.2)
  | .u16 => (readUint 2 bs).map fun p => (.u16 p.1, p.2)
  | .u32 => (readUint 4 bs).map fun p => (.u32 p.1, p.2)
  | .u64 => (readUint 8 bs).map fun p => (.u64 p.1, p.2)
  | .str =>
    match readUint 4 bs with
    | none => none
    | some (len, rest) =>
      if len = 0 then some (.str none, rest)
      else if len ≤ rest.length then
        some (.str (some (rest.take (len - 1))), rest.drop len)
      else none
  | .arr elemT =>
    match readUint 4 bs with
    | none => none
    | some (n, rest) => (serReadMany elemT n rest).map fun p => (.arr p.1, p.2)
termination_by (sizeOf t, 0)

/-- Read `n` consecutive elements of type `t`. -/
def serReadMany (t : SType) (n : Nat) (bs : List Nat) :
    Option (List SVal × List Nat) :=
  match n with
  | 0 => some ([], bs)
  | n + 1 =>
    match serRead t bs with
    | none => none
    | some (v, rest) => (serReadMany t n rest).map fun p => (v :: p.1, p.2)
termination_by (sizeOf t, n + 1)

end

/-- Read a whole schema (field type sequence) from a buffer. -/
def serReadSchema : List SType → List Nat → Option (List SVal × List Nat)
  | [], bs => some ([], bs)
  | t :: ts, bs =>
    match serRead t bs with
    | none => none
    | some (v, rest) => (serReadSchema ts rest).map fun p => (v :: p.1, p.2)

mutual

/-- Value `v` is a value of field type `t`. -/
def typeCheck (t : SType) (v : SVal) : Bool :=
  match t, v with
  | .u8, .u8 _ => true
  | .u16, .u16 _ => true
  | .u32, .u32 _ => true
  | .u64, .u64 _ => true
  | .str, .str _ => true
  | .arr elemT, .arr es => typeCheckMany elemT es
  | _, _ => false

/-- Every element of `es` is a value of field type `t`. -/
def typeCheckMany (t : SType) (es : List SVal) : Bool :=
  match es with
  | [] => true
  | v :: vs => typeCheck t v && typeCheckMany t vs

end

/-- Pointwise typing of a value sequence against a schema. -/
def typeCheckSchema : List SType → List SVal → Bool
  | [], [] => true
  | t :: ts, v :: vs => typeCheck t v && typeCheckSchema ts vs
  | _, _ => false

mutual

/-- Well-formed serializer values: integers within their width, string chars
free of the NUL terminator and short enough for the 32-bit length word,
arrays short enough for the 32-bit count word.  These are exactly the values
representable by the C++ description structs. -/
def serWf : SVal → Bool
  | .u8 v => decide (v < 256)
  | .u16 v => decide (v < 65536)
  | .u32 v => decide (v < u32Mod)
  | .u64 v => decide (v < 18446744073709551616)
  | .str none => true
  | .str (some s) => decide (s.length + 1 < u32Mod) && s.all (fun c => c ≠ 0)
  | .arr es => decide (es.length < u32Mod) && serWfList es

/-- Well-formedness over a field sequence. -/
def serWfList : List SVal → Bool
  | [] => true
  | v :: vs => serWf v && serWfList vs

end

/-! ### Archive device types

From `DeviceObjectArchiveBase` / `ArchiverImpl`: the closed set of six
logical backends (`DeviceType`, `DeviceDataCount == 6`); the index order is
the one used by `GetBlockOffsetType` and by the per-device arrays. -/

/-- The six archive device types. -/
inductive DeviceType
  | OpenGL
  | Direct3D11
  | Direct3D12
  | Vulkan
  | Metal_iOS
  | Metal_MacOS
deriving DecidableEq, Repr

/-- Index of a device type inside the per-backend arrays of the format. -/
def DeviceType.index : DeviceType → Nat
  | .OpenGL => 0
  | .Direct3D11 => 1
  | .Direct3D12 => 2
  | .Vulkan => 3
  | .Metal_iOS => 4
  | .Metal_MacOS => 5

/-- The list of all six device types, in array order. -/
def allDeviceTypes : List DeviceType :=
  [.OpenGL, .Direct3D11, .Direct3D12, .Vulkan, .Metal_iOS, .Metal_MacOS]

/-- Generic association-list lookup (models `std::unordered_map::find`). -/
def alFind {κ α : Type} [DecidableEq κ] : List (κ × α) → κ → Option α
  | [], _ => none
  | (k, v) :: rest, key => if k = key then some v else alFind rest key

/-! ### Writer shader deduplication

From `ArchiverImpl::SerializeShaderBytecode` (ArchiverImpl.cpp:570-606) and
`ArchiverImpl::SerializeShaderSource` (ArchiverImpl.cpp:608-646): each backend
owns a `PerDeviceShaders` record with a dedup map keyed by the full serialized
bytes of the shader and a list of those byte blobs; `emplace(Key, List.size())`
either finds the existing index or appends. -/

/-- One backend's shader registry: the content-keyed dedup map and the shader
list (`m_Shaders[DevType].Map` / `.List`). -/
structure ShadersData where
  map : List (List Nat × Nat)
  list : List (List Nat)

/-- The empty shader registry. -/
def ShadersData.empty : ShadersData := ⟨[], []⟩

/-- The `emplace(Key, List.size())` step shared by both serialize-shader
functions: an existing key returns its index and leaves the registry alone; a
new key is appended to the list and recorded in the map. -/
def shaderEmplace (sd : ShadersData) (key : List Nat) : Nat × ShadersData :=
  match alFind sd.map key with
  | some i => (i, sd)
  | none => (sd.list.length, ⟨(key, sd.list.length) :: sd.map, sd.list ++ [key]⟩)

/-- Content key of `SerializeShaderBytecode`: the serialized fixed prefix
(shader type, entry point, `SHADER_SOURCE_LANGUAGE_DEFAULT`,
`SHADER_COMPILER_DEFAULT` — both serialized as enum value 0) followed by the
raw bytecode bytes.  Enum widths are modelled from the spec (underlying
32-bit width). -/
def shaderBytecodeKey (shaderType : Nat) (entryPoint : Option (List Nat))
    (bytecode : List Nat) : List Nat :=
  serWriteList [.u32 shaderType, .str entryPoint, .u32 0, .u32 0] ++ bytecode

/-- Content key of `SerializeShaderSource`: the serialized prefix (shader
type, entry point, source language, compiler, combined-sampler flag and
suffix) followed by the macro-expanded source text and its NUL terminator.
The `Bool` is serialized at one byte (modelled from the spec). -/
def shaderSourceKey (shaderType : Nat) (entryPoint : Option (List Nat))
    (lang compiler : Nat) (combined : Bool) (suffix : Option (List Nat))
    (source : List Nat) : List Nat :=
  serWriteList [.u32 shaderType, .str entryPoint, .u32 lang, .u32 compiler,
    .u8 (if combined then 1 else 0), .str suffix] ++ (source ++ [0])

/-- One `serialize_shader` call with its arguments (either entry point of the
source file). -/
inductive ShaderCall
  | bytecode (shaderType : Nat) (entryPoint : Option (List Nat))
      (code : List Nat)
  | source (shaderType : Nat) (entryPoint : Option (List Nat))
      (lang compiler : Nat) (combined : Bool) (suffix : Option (List Nat))
      (src : List Nat)

/-- The serialized content key a call produces. -/
def ShaderCall.key : ShaderCall → List Nat
  | .bytecode t e c => shaderBytecodeKey t e c
  | .source t e l cp cb sf s => shaderSourceKey t e l cp cb sf s

/-- Run a `serialize_shader` call against one backend's registry, returning
the index pushed onto `ShaderIndices` and the new registry. -/
def runShaderCall (sd : ShadersData) (c : ShaderCall) : Nat × ShadersData :=
  shaderEmplace sd c.key

/-- Consistency invariant of a shader registry, maintained by
`shaderEmplace` from the empty registry: the map sends each key to its
position in the list and every list position is indexed by the map. -/
def shadersWF (sd : ShadersData) : Prop :=
  (∀ k i, alFind sd.map k = some i → sd.list.get? i = some k) ∧
  (∀ i (h : i < sd.list.length), alFind sd.map (sd.list.get ⟨i, h⟩) = some i)

/-! ### Writer resource-signature registry

From `ArchiverImpl::AddPipelineResourceSignature` (ArchiverImpl.cpp:493-517)
and `ArchiverImpl::AddRenderPass` (ArchiverImpl.cpp:664-683).  C++ object
identity (pointer comparison of `pPRS` / `pRP`) is modelled by the `id`
field. -/

/-- A serializable resource signature as the writer sees it: object identity,
its description name and binding index, and its shared / per-device
serialized bytes (an empty list models a null `SerializedMemory`, matching
`PRSData::GetDeviceData` which substitutes `NullMem`). -/
structure PRSObj where
  id : Nat
  name : String
  bindingIndex : Nat
  sharedData : List Nat
  deviceData : DeviceType → List Nat

/-- A serializable render pass: object identity plus name. -/
structure RPObj where
  id : Nat
  name : String

/-- The writer's signature registry: the name-keyed map `m_PRSMap` and the
object cache `m_PRSCache` (a set of strong references, modelled by ids). -/
structure PRSState where
  prsMap : List (String × PRSObj)
  prsCache : List Nat

/-- Core of `ArchiverImpl::AddPipelineResourceSignature(IPipelineResourceSignature*)`:
a null pointer fails; a duplicate name with the identical object is a no-op
success; a duplicate name with a different object fails; otherwise the
signature is inserted into the map and the cache. -/
def addPRS (s : PRSState) (p : Option PRSObj) : Bool × PRSState :=
  match p with
  | none => (false, s)
  | some prs =>
    match alFind s.prsMap prs.name with
    | some existing =>
      if existing.id ≠ prs.id then (false, s) else (true, s)
    | none =>
      (true,
        { prsMap := (prs.name, prs) :: s.prsMap,
          prsCache := if prs.id ∈ s.prsCache then s.prsCache
                      else prs.id :: s.prsCache })

/-- Fold of `AddPipelineResourceSignature` over the signature array of a
pipeline (ArchiverImpl.cpp:889-894): stops at the first failure. -/
def addPRSList (s : PRSState) : List (Option PRSObj) → Bool × PRSState
  | [] => (true, s)
  | p :: ps =>
    match addPRS s p with
    | (false, s') => (false, s')
    | (true, s') => addPRSList s' ps

/-! ### Writer per-device data layout helpers

From `ArchiverImpl::ReserveSpace` (ArchiverImpl.cpp:116-189),
`WritePerDeviceData` (ArchiverImpl.cpp:240-253) and the
`WritePRSPerDeviceData` lambda of `SerializeToStream`
(ArchiverImpl.cpp:449-456). -/

/-- A kind-tagged data header with its per-backend (size, offset) pairs
(`PRSDataHeader` / `RPDataHeader` / `PSODataHeader`; layout from spec §4.B).
-/
structure DataHeader where
  type : Nat
  deviceSize : DeviceType → Nat
  deviceOffset : DeviceType → Nat

/-- Record a per-device size in a data header (`Header.SetSize`). -/
def DataHeader.setSize (h : DataHeader) (t : DeviceType) (v : Nat) : DataHeader :=
  { h with deviceSize := fun t' => if t' = t then v else h.deviceSize t' }

/-- Record a per-device offset in a data header (`Header.SetOffset`). -/
def DataHeader.setOffset (h : DataHeader) (t : DeviceType) (v : Nat) : DataHeader :=
  { h with deviceOffset := fun t' => if t' = t then v else h.deviceOffset t' }

/-- The device type whose bytes are used for a signature's per-device entry:
macOS is redirected to iOS (`MacOS & iOS have the same PRS`,
ArchiverImpl.cpp:149-150 and 452-453). -/
def prsDeviceTypeFor (t : DeviceType) : DeviceType :=
  if t = .Metal_MacOS then .Metal_iOS else t

/-- Space reserved by `ReserveSpace` in backend block `t` for one signature:
the size of the source bytes of the redirected device type
(ArchiverImpl.cpp:146-154). -/
def reservePRSDeviceSpace (prs : PRSObj) (t : DeviceType) : Nat :=
  (prs.deviceData (prsDeviceTypeFor t)).length

/-- `WritePerDeviceData`: a null source is skipped; otherwise the bytes are
appended to the backend block and the size and offset are recorded under
slot `t` of the header. -/
def writePerDeviceData (hdr : DataHeader) (t : DeviceType) (srcMem : List Nat)
    (dst : List Nat) : DataHeader × List Nat :=
  if srcMem = [] then (hdr, dst)
  else ((hdr.setSize t srcMem.length).setOffset t dst.length, dst ++ srcMem)

/-- The `WritePRSPerDeviceData` lambda: write slot `t` of the header using
the bytes of the redirected device type. -/
def writePRSPerDeviceData (hdr : DataHeader) (t : DeviceType) (prs : PRSObj)
    (dst : List Nat) : DataHeader × List Nat :=
  writePerDeviceData hdr t (prs.deviceData (prsDeviceTypeFor t)) dst

/-! ### Writer pipeline registration

From `ArchiverImpl::SerializePSO` (ArchiverImpl.cpp:792-905),
`ValidatePipelineStateArchiveInfo` (ArchiverImpl.cpp:764-788) and the four
`Add*PipelineState` entry points (ArchiverImpl.cpp:907-935).  The
backend-specific shader patchers (`PatchShaders*`), the external
`ValidatePSOCreateInfo` and the `PSOSerializer` blob are external
collaborators (spec §1) and are supplied as oracles in `ArchiverEnv`; a
patcher may register default signatures, so it receives and returns the
writer's signature registry. -/

/-- The render-device-type bits iterated by the patching loop
(`RENDER_DEVICE_TYPE`, in `ExtractLSB` order). -/
inductive RenderDeviceType
  | D3D11
  | D3D12
  | GL
  | GLES
  | Vulkan
  | Metal
deriving DecidableEq, Repr

/-- Per-pipeline pending data (`TPSOData`): the shared description blob
(`none` models an empty `SerializedMemory`, i.e. `!Data.SharedData`) and the
per-device blobs. -/
structure PSOData where
  sharedData : Option (List Nat)
  perDeviceData : DeviceType → List Nat

/-- Freshly emplaced pipeline data (`TPSOData<CreateInfoType>{}`). -/
def PSOData.empty : PSOData := ⟨none, fun _ => []⟩

/-- The slice of a `*PipelineStateCreateInfo` that `SerializePSO` itself
inspects: the name, the resource-signature array (`none` models a null
`ppResourceSignatures`; element `none` a null entry) and, for graphics
pipelines, the render pass pointer. -/
structure PipelineCI where
  name : Option String
  resourceSignatures : Option (List (Option PRSObj))
  renderPass : Option RPObj

/-- `PipelineStateArchiveInfo`: the requested backend set, as the list of
bits in `ExtractLSB` order. -/
structure PipelineArchiveInfo where
  deviceFlags : List RenderDeviceType

/-- `ResourceSignaturesCount` of a create info. -/
def PipelineCI.sigCount (ci : PipelineCI) : Nat :=
  (ci.resourceSignatures.getD []).length

/-- External collaborators of `SerializePSO`. -/
structure ArchiverEnv where
  /-- `GetValidDeviceFlags()` of the serialization device. -/
  validFlags : List RenderDeviceType
  /-- Outcome of the external `ValidatePSOCreateInfo`. -/
  validateCI : Bool
  /-- One `PatchShaders*` step: may fail, and may register default
  signatures in the writer's signature registry. -/
  patch : RenderDeviceType → PRSState → Bool × PRSState
  /-- `DefPRS.pPRS` as produced by the patchers (possibly still null). -/
  defaultPRS : Option PRSObj
  /-- The shared description blob produced through the external
  `PSOSerializer`. -/
  psoBlob : List Nat

/-- `ValidatePipelineStateArchiveInfo` combined with the external
`ValidatePSOCreateInfo` (both run inside the `try` block of
`SerializePSO`): a non-empty backend set within the supported mask, a
non-null name, count/pointer consistency of the signature array, non-null
signatures, unique binding indices. -/
def validateArchiveInfo (env : ArchiverEnv) (ci : PipelineCI)
    (ai : PipelineArchiveInfo) : Bool :=
  decide (ai.deviceFlags ≠ []) &&
  ai.deviceFlags.all (fun t => env.validFlags.contains t) &&
  ci.name.isSome &&
  (decide (ci.sigCount ≠ 0) == ci.resourceSignatures.isSome) &&
  (ci.resourceSignatures.getD []).all (fun p => p.isSome) &&
  ((ci.resourceSignatures.getD []).filterMap id |>.map
    (fun p => p.bindingIndex)).Nodup &&
  env.validateCI

/-- The patching loop of `SerializePSO` (ArchiverImpl.cpp:825-875): one
patcher call per requested backend bit, short-circuiting on the first
failure. -/
def patchLoop (env : ArchiverEnv) : List RenderDeviceType → PRSState →
    Bool × PRSState
  | [], s => (true, s)
  | t :: ts, s =>
    match env.patch t s with
    | (false, s') => (false, s')
    | (true, s') => patchLoop env ts s'

/-- Replace the value stored under a key of an association list. -/
def alSet {κ α : Type} [DecidableEq κ] : List (κ × α) → κ → α → List (κ × α)
  | [], _, _ => []
  | (k, v) :: rest, key, nv =>
    if k = key then (k, nv) :: rest else (k, v) :: alSet rest key nv

/-- `ArchiverImpl::SerializePSO` over one pipeline map: validate, emplace the
pipeline under its name (failing on a duplicate), patch every requested
backend (returning `false` on the first patch failure — the emplaced entry
is not removed), register the pipeline's signatures, then serialize the
shared blob into the entry. -/
def serializePSOStep (env : ArchiverEnv) (psoMap : List (String × PSOData))
    (prs : PRSState) (ci : PipelineCI) (ai : PipelineArchiveInfo) :
    Bool × List (String × PSOData) × PRSState :=
  if validateArchiveInfo env ci ai = false then (false, psoMap, prs)
  else
    match ci.name with
    | none => (false, psoMap, prs)
    | some name =>
      match alFind psoMap name with
      | some _ => (false, psoMap, prs)
      | none =>
        let psoMap₁ := (name, PSOData.empty) :: psoMap
        match patchLoop env ai.deviceFlags prs with
        | (false, prs₁) => (false, psoMap₁, prs₁)
        | (true, prs₁) =>
          let sigs : List (Option PRSObj) :=
            if ci.sigCount = 0 then [env.defaultPRS]
            else ci.resourceSignatures.getD []
          match addPRSList prs₁ sigs with
          | (false, prs₂) => (false, psoMap₁, prs₂)
          | (true, prs₂) =>
            (true,
              alSet psoMap₁ name
                { PSOData.empty with sharedData := some env.psoBlob },
              prs₂)

/-- The full writer registry (`ArchiverImpl` data members). -/
structure WriterState where
  prs : PRSState
  rpMap : List (String × Nat)
  graphicsPSOMap : List (String × PSOData)
  computePSOMap : List (String × PSOData)
  tilePSOMap : List (String × PSOData)
  rayTracingPSOMap : List (String × PSOData)
  shaders : DeviceType → ShadersData

/-- The empty writer. -/
def WriterState.empty : WriterState :=
  ⟨⟨[], []⟩, [], [], [], [], [], fun _ => ShadersData.empty⟩

/-- `ArchiverImpl::AddPipelineResourceSignature` on the full writer state. -/
def addPipelineResourceSignature (st : WriterState) (p : Option PRSObj) :
    Bool × WriterState :=
  let r := addPRS st.prs p
  (r.1, { st with prs := r.2 })

/-- `ArchiverImpl::AddRenderPass`: null fails; duplicate name with the
identical object is a no-op success; duplicate name with a different object
fails; otherwise the pass is inserted. -/
def addRenderPass (st : WriterState) (rp : Option RPObj) : Bool × WriterState :=
  match rp with
  | none => (false, st)
  | some pass =>
    match alFind st.rpMap pass.name with
    | some existingId =>
      if existingId ≠ pass.id then (false, st) else (true, st)
    | none => (true, { st with rpMap := (pass.name, pass.id) :: st.rpMap })

/-- `ArchiverImpl::AddGraphicsPipelineState`: a non-null render pass is
registered first; then `SerializePSO` runs over the graphics map. -/
def addGraphicsPipelineState (env : ArchiverEnv) (st : WriterState)
    (ci : PipelineCI) (ai : PipelineArchiveInfo) : Bool × WriterState :=
  let afterRP : Bool × WriterState :=
    match ci.renderPass with
    | some rp =>
      let r := addRenderPass st (some rp)
      (r.1, r.2)
    | none => (true, st)
  if afterRP.1 = false then (false, afterRP.2)
  else
    let st₁ := afterRP.2
    let r := serializePSOStep env st₁.graphicsPSOMap st₁.prs ci ai
    (r.1, { st₁ with graphicsPSOMap := r.2.1, prs := r.2.2 })

/-- `ArchiverImpl::AddComputePipelineState`. -/
def addComputePipelineState (env : ArchiverEnv) (st : WriterState)
    (ci : PipelineCI) (ai : PipelineArchiveInfo) : Bool × WriterState :=
  let r := serializePSOStep env st.computePSOMap st.prs ci ai
  (r.1, { st with computePSOMap := r.2.1, prs := r.2.2 })

/-- `ArchiverImpl::AddTilePipelineState`. -/
def addTilePipelineState (env : ArchiverEnv) (st : WriterState)
    (ci : PipelineCI) (ai : PipelineArchiveInfo) : Bool × WriterState :=
  let r := serializePSOStep env st.tilePSOMap st.prs ci ai
  (r.1, { st with tilePSOMap := r.2.1, prs := r.2.2 })

/-- `ArchiverImpl::AddRayTracingPipelineState`. -/
def addRayTracingPipelineState (env : ArchiverEnv) (st : WriterState)
    (ci : PipelineCI) (ai : PipelineArchiveInfo) : Bool × WriterState :=
  let r := serializePSOStep env st.rayTracingPSOMap st.prs ci ai
  (r.1, { st with rayTracingPSOMap := r.2.1, prs := r.2.2 })

/-- The four pipeline kinds of the writer. -/
inductive PSOKind
  | graphics
  | compute
  | tile
  | rayTracing
deriving DecidableEq, Repr

/-- The pipeline map a kind registers into. -/
def psoMapOf (k : PSOKind) (st : WriterState) : List (String × PSOData) :=
  match k with
  | .graphics => st.graphicsPSOMap
  | .compute => st.computePSOMap
  | .tile => st.tilePSOMap
  | .rayTracing => st.rayTracingPSOMap

/-- Dispatch to the pipeline add operation of a kind. -/
def addPipelineState (k : PSOKind) (env : ArchiverEnv) (st : WriterState)
    (ci : PipelineCI) (ai : PipelineArchiveInfo) : Bool × WriterState :=
  match k with
  | .graphics => addGraphicsPipelineState env st ci ai
  | .compute => addComputePipelineState env st ci ai
  | .tile => addTilePipelineState env st ci ai
  | .rayTracing => addRayTracingPipelineState env st ci ai

/-! ### Reader construction over a byte source

From the `DeviceObjectArchiveBase` constructor
(DeviceObjectArchiveBase.cpp:69-129), `ReadNamedResources`
(DeviceObjectArchiveBase.cpp:190-232), `ReadArchiveDebugInfo`
(DeviceObjectArchiveBase.cpp:150-176) and `ReadIndexedResources`
(DeviceObjectArchiveBase.cpp:234-264).  The byte source is a list of bytes;
`read(offset, size)` succeeds exactly when the range lies inside it.

Modelled from the spec: the packed layouts of `ArchiveHeader` (64-bit magic,
32-bit version, 32-bit chunk count, six 32-bit block base offsets — 40
bytes), `ChunkHeader` (kind, size, offset — 12 bytes),
`NamedResourceArrayHeader` (32-bit count followed by the three parallel
32-bit arrays and the packed names) and `ShadersDataHeader` (kind tag plus
six sizes and six offsets — 52 bytes) are declared in headers that are not
among the sources; spec §4.B / §6 fix them.  The `ChunkType` enumeration is
likewise modelled from the spec: nine kinds, value 0 reserved
(`Undefined`), then `ArchiveDebugInfo = 1`, `ResourceSignature = 2`,
`GraphicsPipelineStates = 3`, `ComputePipelineStates = 4`,
`RayTracingPipelineStates = 5`, `TilePipelineStates = 6`, `RenderPass = 7`,
`Shaders = 8` in the dispatch order of the constructor switch. -/

/-- `IArchive::Read(offset, size, dst)`: the requested slice, or `none` when
the range escapes the source. -/
def readBytes (data : List Nat) (off sz : Nat) : Option (List Nat) :=
  if off + sz ≤ data.length then some ((data.drop off).take sz) else none

/-- The 32-bit little-endian word at byte offset `i` of a buffer (reads of
fields of packed structs; missing bytes read as 0, the callers guarantee the
bounds). -/
def u32At (bs : List Nat) (i : Nat) : Nat :=
  bs.getD i 0 % 256 + 256 * (bs.getD (i + 1) 0 % 256) +
    65536 * (bs.getD (i + 2) 0 % 256) + 16777216 * (bs.getD (i + 3) 0 % 256)

/-- The 64-bit little-endian word at byte offset `i` of a buffer. -/
def u64At (bs : List Nat) (i : Nat) : Nat :=
  u32At bs i + u32Mod * u32At bs (i + 4)

/-- `HeaderMagicNumber` (spec §8 S3: the bytes begin with
`0x44494C4E54415243`). -/
def headerMagicNumber : Nat := 0x44494C4E54415243

/-- `HeaderVersion` (spec §6: currently 1). -/
def headerVersion : Nat := 1

/-- Byte size of the packed `ArchiveHeader`. -/
def archiveHeaderSize : Nat := 40

/-- Byte size of a packed `ChunkHeader`. -/
def chunkHeaderSize : Nat := 12

/-- Byte size of the packed `ShadersDataHeader`. -/
def shadersDataHeaderSize : Nat := 52

/-- The decoded `ArchiveHeader`. -/
structure ArchiveHeader where
  magic : Nat
  version : Nat
  numChunks : Nat
  blockBaseOffsets : DeviceType → Nat

/-- The decoded `ChunkHeader`. -/
structure ChunkHeader where
  type : Nat
  size : Nat
  offset : Nat
deriving DecidableEq, Repr

/-- Errors raised (`LOG_ERROR_AND_THROW`) during reader construction. -/
inductive ArchiveError
  | readFailed
  | badMagic
  | unsupportedVersion
  | duplicateChunk
  | unknownChunk
  | corruptArchive
deriving DecidableEq, Repr

/-- Whether an `Except` result is an error. -/
def isErrB {ε α : Type} : Except ε α → Bool
  | .error _ => true
  | .ok _ => false

/-- Read and decode the `ArchiveHeader` at offset 0. -/
def parseArchiveHeader (data : List Nat) : Option ArchiveHeader :=
  (readBytes data 0 archiveHeaderSize).map fun bs =>
    { magic := u64At bs 0,
      version := u32At bs 8,
      numChunks := u32At bs 12,
      blockBaseOffsets := fun t => u32At bs (16 + 4 * t.index) }

/-- Read and decode the `n` chunk headers following the archive header. -/
def parseChunkHeaders (data : List Nat) (n : Nat) : Option (List ChunkHeader) :=
  (readBytes data archiveHeaderSize (chunkHeaderSize * n)).map fun bs =>
    (List.range n).map fun i =>
      { type := u32At bs (chunkHeaderSize * i),
        size := u32At bs (chunkHeaderSize * i + 4),
        offset := u32At bs (chunkHeaderSize * i + 8) }

/-- One directory entry produced by `ReadNamedResources`: the
NUL-terminated name bytes (without the terminator) and the data offset and
size. -/
structure NamedDirEntry where
  name : List Nat
  offset : Nat
  size : Nat
deriving DecidableEq, Repr

/-- Name length of entry `i` of a named-resource chunk body. -/
def nrNameLen (body : List Nat) (i : Nat) : Nat :=
  u32At body (4 + 4 * i)

/-- Data size of entry `i` of a named-resource chunk body. -/
def nrDataSize (body : List Nat) (count i : Nat) : Nat :=
  u32At body (4 + 4 * count + 4 * i)

/-- Data offset of entry `i` of a named-resource chunk body. -/
def nrDataOffset (body : List Nat) (count i : Nat) : Nat :=
  u32At body (4 + 8 * count + 4 * i)

/-- The loop of `ReadNamedResources` over the remaining entries, at entry
index `i` with name cursor `pos` (`InPlaceAlloc.GetCurrentSize()`).  Each
step first checks that the name fits in the chunk body, then checks the
entry's data range against the archive size — the latter in 32-bit
arithmetic, exactly as the `Uint32` addition of the source — and then reads
the entry's name (a C string, read up to its terminator).  Both violations
throw `corrupt-archive`. -/
def nrGo (archiveSize : Nat) (body : List Nat) (count : Nat) :
    Nat → Nat → Nat → List NamedDirEntry →
    Except ArchiveError (List NamedDirEntry)
  | 0, _, _, acc => .ok acc
  | rem + 1, i, pos, acc =>
    let len := nrNameLen body i
    if pos + len > body.length then .error .corruptArchive
    else if (nrDataOffset body count i + nrDataSize body count i) % u32Mod >
        archiveSize then .error .corruptArchive
    else
      let name := ((body.drop pos).take len).takeWhile (fun c => c ≠ 0)
      nrGo archiveSize body count rem (i + 1) (pos + len)
        (acc ++ [⟨name, nrDataOffset body count i, nrDataSize body count i⟩])

/-- `ReadNamedResources` applied to a chunk body that was already read from
the archive: parse the `NamedResourceArrayHeader` and the three parallel
arrays, then walk the packed names, validating every entry. -/
def readNamedResources (archiveSize : Nat) (body : List Nat) :
    Except ArchiveError (List NamedDirEntry) :=
  let count := u32At body 0
  nrGo archiveSize body count count 0 (4 + 12 * count) []

/-- A named directory slot of the reader: the `FileOffsetAndSize` plus the
weak live-object cache of that name (`none` models a dead or absent weak
reference). -/
structure NamedEntry where
  offset : Nat
  size : Nat
  cache : Option Nat
deriving DecidableEq, Repr

/-- A shader slot of the reader (`m_Shaders[i]`): file offset and size
within the backend block plus the cached shader handle. -/
structure ShaderSlot where
  offset : Nat
  size : Nat
  cache : Option Nat
deriving DecidableEq, Repr

/-- The reader's state after construction: one name-keyed
directory-and-cache per named resource kind, the shader slot table, the
per-backend base offsets and the debug info. -/
structure ReaderState where
  prsMap : List (List Nat × NamedEntry)
  rpMap : List (List Nat × NamedEntry)
  graphicsMap : List (List Nat × NamedEntry)
  computeMap : List (List Nat × NamedEntry)
  tileMap : List (List Nat × NamedEntry)
  rayTracingMap : List (List Nat × NamedEntry)
  shaders : List ShaderSlot
  baseOffsets : DeviceType → Nat
  debugAPIVersion : Nat

/-- The reader state right after the header is read. -/
def initialReaderState (hdr : ArchiveHeader) : ReaderState :=
  ⟨[], [], [], [], [], [], [], hdr.blockBaseOffsets, 0⟩

/-- Install the parsed entries of one named-resource chunk into its
directory (the `emplace` loop; a duplicate name is not inserted). -/
def insertNamedEntries (m : List (List Nat × NamedEntry)) :
    List NamedDirEntry → List (List Nat × NamedEntry)
  | [] => m
  | e :: es =>
    match alFind m e.name with
    | some _ => insertNamedEntries m es
    | none => insertNamedEntries (m ++ [(e.name, ⟨e.offset, e.size, none⟩)]) es

/-- Decoded `ShadersDataHeader`. -/
structure ShadersHeader where
  type : Nat
  deviceSize : DeviceType → Nat
  deviceOffset : DeviceType → Nat

/-- Decode a `ShadersDataHeader` from its 52 bytes. -/
def parseShadersHeader (bs : List Nat) : ShadersHeader :=
  { type := u32At bs 0,
    deviceSize := fun t => u32At bs (4 + 4 * t.index),
    deviceOffset := fun t => u32At bs (28 + 4 * t.index) }

/-- `LoadDeviceSpecificData` (DeviceObjectArchiveBase.cpp:301-335): check the
base offset of the selected backend block, the presence of device data and
its end offset, then read the bytes.  Every failure is only logged, so the
result is an `Option`. -/
def loadDeviceSpecificData (data : List Nat) (baseOffsets : DeviceType → Nat)
    (devType : DeviceType) (size off : Nat) : Option (List Nat) :=
  let baseOffset := baseOffsets devType
  if baseOffset > data.length then none
  else if size = 0 then none
  else if baseOffset + (off + size) > data.length then none
  else readBytes data (baseOffset + off) size

/-- The `Fn` of `ReadIndexedResources`: slice the backend's
`FileOffsetAndSize` preamble into shader slots (`DataSize /
sizeof(FileOffsetAndSize)` records). -/
def parseShaderSlots (bs : List Nat) : List ShaderSlot :=
  (List.range (bs.length / 8)).map fun i =>
    ⟨u32At bs (8 * i), u32At bs (8 * i + 4), none⟩

/-- `ReadIndexedResources`: read the `ShadersDataHeader` of the shaders
chunk (throwing on a failed read), then resolve the backend-local shader
preamble; failures past the header read are only logged. -/
def readIndexedResources (data : List Nat) (devType : DeviceType)
    (ch : ChunkHeader) (st : ReaderState) :
    Except ArchiveError ReaderState :=
  match readBytes data ch.offset shadersDataHeaderSize with
  | none => .error .readFailed
  | some bs =>
    let hdr := parseShadersHeader bs
    match loadDeviceSpecificData data st.baseOffsets devType
        (hdr.deviceSize devType) (hdr.deviceOffset devType) with
    | none => .ok st
    | some payload => .ok { st with shaders := parseShaderSlots payload }

/-- `ReadArchiveDebugInfo`: read the chunk body (throwing on a failed read)
and decode the API version and the git hash through the read-mode
serializer; a decode past the buffer end is `corrupt-archive` (spec §4.A). -/
def readDebugInfoChunk (data : List Nat) (ch : ChunkHeader)
    (st : ReaderState) : Except ArchiveError ReaderState :=
  match readBytes data ch.offset ch.size with
  | none => .error .readFailed
  | some body =>
    match serReadSchema [.u32, .str] body with
    | some ([.u32 api, .str _], _) => .ok { st with debugAPIVersion := api }
    | _ => .error .corruptArchive

/-- Process one chunk of the constructor switch
(DeviceObjectArchiveBase.cpp:113-127): dispatch on the chunk kind; an
unrecognized kind (the reserved value 0 or any value past 8) throws
`unknown-chunk`. -/
def processOneChunk (data : List Nat) (devType : DeviceType)
    (ch : ChunkHeader) (st : ReaderState) :
    Except ArchiveError ReaderState :=
  match ch.type with
  | 1 => readDebugInfoChunk data ch st
  | 2 =>
    match readBytes data ch.offset ch.size with
    | none => .error .readFailed
    | some body =>
      (readNamedResources data.length body).map fun es =>
        { st with prsMap := insertNamedEntries st.prsMap es }
  | 3 =>
    match readBytes data ch.offset ch.size with
    | none => .error .readFailed
    | some body =>
      (readNamedResources data.length body).map fun es =>
        { st with graphicsMap := insertNamedEntries st.graphicsMap es }
  | 4 =>
    match readBytes data ch.offset ch.size with
    | none => .error .readFailed
    | some body =>
      (readNamedResources data.length body).map fun es =>
        { st with computeMap := insertNamedEntries st.computeMap es }
  | 5 =>
    match readBytes data ch.offset ch.size with
    | none => .error .readFailed
    | some body =>
      (readNamedResources data.length body).map fun es =>
        { st with rayTracingMap := insertNamedEntries st.rayTracingMap es }
  | 6 =>
    match readBytes data ch.offset ch.size with
    | none => .error .readFailed
    | some body =>
      (readNamedResources data.length body).map fun es =>
        { st with tileMap := insertNamedEntries st.tileMap es }
  | 7 =>
    match readBytes data ch.offset ch.size with
    | none => .error .readFailed
    | some body =>
      (readNamedResources data.length body).map fun es =>
        { st with rpMap := insertNamedEntries st.rpMap es }
  | 8 => readIndexedResources data devType ch st
  | _ => .error .unknownChunk

/-- The chunk loop of the constructor: a kind seen before throws
`duplicate-chunk` (the `ProcessedBits` bitset, modelled as the list of
already processed kinds; the source indexes the 9-bit bitset before the
dispatch, so the duplicate check precedes the unknown-kind check). -/
def processChunks (data : List Nat) (devType : DeviceType) :
    List ChunkHeader → List Nat → ReaderState →
    Except ArchiveError ReaderState
  | [], _, st => .ok st
  | ch :: rest, processed, st =>
    if ch.type ∈ processed then .error .duplicateChunk
    else
      match processOneChunk data devType ch st with
      | .error e => .error e
      | .ok st' => processChunks data devType rest (ch.type :: processed) st'

/-- The `DeviceObjectArchiveBase` constructor over a byte source: read and
check the archive header, read the chunk directory, then process every
chunk. -/
def constructArchive (devType : DeviceType) (data : List Nat) :
    Except ArchiveError ReaderState :=
  match parseArchiveHeader data with
  | none => .error .readFailed
  | some hdr =>
    if hdr.magic ≠ headerMagicNumber then .error .badMagic
    else if hdr.version ≠ headerVersion then .error .unsupportedVersion
    else
      match parseChunkHeaders data hdr.numChunks with
      | none => .error .readFailed
      | some chunks =>
        processChunks data devType chunks [] (initialReaderState hdr)

/-! ### Reader materializer

From `GetCachedResource` / `CacheResource`
(DeviceObjectArchiveBase.cpp:410-446), `UnpackGraphicsPSO`
(DeviceObjectArchiveBase.cpp:626-743), `UnpackTilePSO`
(DeviceObjectArchiveBase.cpp:793-862), `UnpackRenderPass`
(DeviceObjectArchiveBase.cpp:940-991), `UnpackResourceSignatureImpl`
(DeviceObjectArchiveBase.cpp:993-1018), `LoadShaders`
(DeviceObjectArchiveBase.cpp:560-624) and `ClearResourceCache`
(DeviceObjectArchiveBase.cpp:1020-1028).

The external collaborators — the `IArchive` byte source, the read-mode
`PSOSerializer` decoders and the device factories — are oracles in
`ReaderEnv`.  Live handles are `Nat`s; a weak cache slot holds `some h`
exactly when the weak reference can still be upgraded.  `SHADER_TYPE` flag
values are modelled from the spec as distinct bits (the exact numerals are
irrelevant to the properties proved). -/

/-- Shader type bits used by the unpack dispatch. -/
def shaderTypeVertex : Nat := 1

/-- Pixel shader type bit. -/
def shaderTypePixel : Nat := 2

/-- Geometry shader type bit. -/
def shaderTypeGeometry : Nat := 4

/-- Hull shader type bit. -/
def shaderTypeHull : Nat := 8

/-- Domain shader type bit. -/
def shaderTypeDomain : Nat := 16

/-- Compute shader type bit. -/
def shaderTypeCompute : Nat := 32

/-- Amplification shader type bit. -/
def shaderTypeAmplification : Nat := 1024

/-- Mesh shader type bit. -/
def shaderTypeMesh : Nat := 2048

/-- Tile shader type bit. -/
def shaderTypeTile : Nat := 4096

/-- Attachment description of a render pass (the fields the attachment
override flags can substitute). -/
structure AttachmentDesc where
  format : Nat
  sampleCount : Nat
  loadOp : Nat
  storeOp : Nat
  stencilLoadOp : Nat
  stencilStoreOp : Nat
  initialState : Nat
  finalState : Nat
deriving DecidableEq, Repr

/-- Deserialized render pass description. -/
structure RPDesc where
  attachments : List AttachmentDesc
  rest : Nat
deriving DecidableEq, Repr

/-- One attachment override of a render pass unpack request
(`RenderPassUnpackInfo::pAttachments[i]`). -/
structure RPAttachOverride where
  attachmentIndex : Nat
  overrideFlags : Nat
  desc : AttachmentDesc
deriving DecidableEq, Repr

/-- A render pass unpack request; `attachmentOverrides ≠ []` models
`AttachmentCount != 0`. -/
structure RPUnpackInfo where
  name : List Nat
  attachmentOverrides : List RPAttachOverride
deriving DecidableEq, Repr

/-- Graphics pipeline description slice holding every field the unpack
override flags can substitute, the shader slots and the request-supplied
fields. -/
structure GraphicsCI where
  name : List Nat
  rasterizer : Nat
  blend : Nat
  sampleMask : Nat
  depthStencil : Nat
  inputLayout : Nat
  topology : Nat
  numViewports : Nat
  numRenderTargets : Nat
  rtvFormats : Nat
  renderPassRef : Option Nat
  subpassIndex : Nat
  shadingRate : Nat
  dsvFormat : Nat
  sampleDesc : Nat
  srbGranularity : Nat
  contextMask : Nat
  vs : Option Nat
  ps : Option Nat
  gs : Option Nat
  hs : Option Nat
  ds : Option Nat
  as' : Option Nat
  ms : Option Nat
deriving DecidableEq, Repr

/-- Tile pipeline description slice. -/
structure TileCI where
  name : List Nat
  sampleCount : Nat
  numRenderTargets : Nat
  rtvFormats : Nat
  srbGranularity : Nat
  contextMask : Nat
  ts : Option Nat
deriving DecidableEq, Repr

/-- Caller-supplied `GraphicsPipelineDesc` carrying the override values. -/
structure GraphicsOverrideDesc where
  rasterizer : Nat
  blend : Nat
  sampleMask : Nat
  depthStencil : Nat
  inputLayout : Nat
  topology : Nat
  numViewports : Nat
  numRenderTargets : Nat
  rtvFormats : Nat
  renderPass : Option Nat
  subpassIndex : Nat
  shadingRate : Nat
  dsvFormat : Nat
  sampleDesc : Nat
deriving DecidableEq, Repr

/-- Caller-supplied `TilePipelineDesc` carrying the override values. -/
structure TileOverrideDesc where
  sampleCount : Nat
  numRenderTargets : Nat
  rtvFormats : Nat
deriving DecidableEq, Repr

/-- A pipeline unpack request (`PipelineStateUnpackInfo` slice): the name,
the override bitmask (`PSO_UNPACK_OVERRIDE_FLAG_*` bits 0-12) and the
override descriptions. -/
structure PSOUnpackInfo where
  name : List Nat
  overrideFlags : Nat
  graphicsDesc : GraphicsOverrideDesc
  tileDesc : TileOverrideDesc
  srbGranularity : Nat
  contextMask : Nat
deriving DecidableEq, Repr

/-- Parsed shared data of a pipeline (`ReadPSOData` result): the kind-tagged
data header's per-backend table, the render pass name, the signature names
and the deserialized create info. -/
structure GraphicsParsed where
  deviceSize : DeviceType → Nat
  deviceOffset : DeviceType → Nat
  renderPassName : List Nat
  prsNames : List (List Nat)
  ci : GraphicsCI

/-- Parsed shared data of a tile pipeline. -/
structure TileParsed where
  deviceSize : DeviceType → Nat
  deviceOffset : DeviceType → Nat
  prsNames : List (List Nat)
  ci : TileCI

/-- Parsed shared data of a resource signature. -/
structure PRSParsed where
  deviceSize : DeviceType → Nat
  deviceOffset : DeviceType → Nat
  desc : Nat

/-- External collaborators of the reader materializer. -/
structure ReaderEnv where
  /-- `m_pArchive->GetSize()`. -/
  archiveSize : Nat
  /-- `m_pArchive->Read(offset, size, dst)`. -/
  readAt : Nat → Nat → Option (List Nat)
  /-- The selected backend (`m_DevType`). -/
  devType : DeviceType
  /-- `ReadPSOData` for a graphics pipeline at a directory slot: archive
  read, header kind check and description decode. -/
  parseGraphics : Nat × Nat → Option GraphicsParsed
  /-- `ReadPSOData` for a tile pipeline. -/
  parseTile : Nat × Nat → Option TileParsed
  /-- `ReadRPData` at a directory slot. -/
  parseRP : Nat × Nat → Option RPDesc
  /-- `ReadPRSData` at a directory slot. -/
  parsePRS : Nat × Nat → Option PRSParsed
  /-- Read-mode `PSOSerializer::SerializeShaders` over device data bytes. -/
  parseShaderIndices : List Nat → Option (List Nat)
  /-- Deserialize one shader's bytes and run the device factory
  (`ReadAndCreateShader`): the produced handle and its shader type. -/
  createShader : List Nat → Option (Nat × Nat)
  /-- `CreateGraphicsPipelineState` factory. -/
  createGraphicsPipeline : GraphicsCI → Option Nat
  /-- `CreateTilePipelineState` factory. -/
  createTilePipeline : TileCI → Option Nat
  /-- `CreateRenderPass` factory. -/
  createRenderPass : RPDesc → Option Nat
  /-- `CreateSignature` factory over the parsed description and the
  device-specific bytes. -/
  createSignature : PRSParsed → List Nat → Option Nat

/-- `GetCachedResource`: find the name in the directory-and-cache map and
try to upgrade the weak reference. -/
def getCached (m : List (List Nat × NamedEntry)) (name : List Nat) :
    Option Nat :=
  match alFind m name with
  | none => none
  | some e => e.cache

/-- Directory lookup of `LoadResourceData`
(DeviceObjectArchiveBase.cpp:274-287): the `FileOffsetAndSize` of a name. -/
def dirLookup (m : List (List Nat × NamedEntry)) (name : List Nat) :
    Option (Nat × Nat) :=
  (alFind m name).map fun e => (e.offset, e.size)

/-- `CacheResource`: a missing directory entry or a still-live cached object
leaves the map alone; otherwise the weak reference is replaced.  A null
produced object (the factory failed) leaves no live entry. -/
def cacheInstall (m : List (List Nat × NamedEntry)) (name : List Nat) :
    Option Nat → List (List Nat × NamedEntry)
  | none => m
  | some h =>
    match alFind m name with
    | none => m
    | some e =>
      match e.cache with
      | some _ => m
      | none => alSet m name { e with cache := some h }

/-- Replace the weak cache slot of one directory entry (used to state that
the cache is never consulted: the unpack result is invariant under it). -/
def setCacheEntry (m : List (List Nat × NamedEntry)) (name : List Nat)
    (c : Option Nat) : List (List Nat × NamedEntry) :=
  m.map fun p => if p.1 = name then (p.1, { p.2 with cache := c }) else p

/-- `UnpackResourceSignatureImpl` over the signature directory: cache check,
`ReadPRSData`, `LoadDeviceSpecificData`, factory, then an unconditional
`CacheResource` inside the load callback. -/
def unpackResourceSignature (env : ReaderEnv) (baseOffsets : DeviceType → Nat)
    (data : List Nat) (prsMap : List (List Nat × NamedEntry))
    (name : List Nat) : Option Nat × List (List Nat × NamedEntry) :=
  match getCached prsMap name with
  | some h => (some h, prsMap)
  | none =>
    match dirLookup prsMap name with
    | none => (none, prsMap)
    | some os =>
      match env.parsePRS os with
      | none => (none, prsMap)
      | some parsed =>
        match loadDeviceSpecificData data baseOffsets env.devType
            (parsed.deviceSize env.devType) (parsed.deviceOffset env.devType) with
        | none => (none, prsMap)
        | some bytes =>
          let sig := env.createSignature parsed bytes
          (sig, cacheInstall prsMap name sig)

/-- Substitute the flagged fields of one attachment
(the `RP_UNPACK_OVERRIDE_FLAG_*` switch, bits 0-7). -/
def applyRPAttachmentOverride (dst : AttachmentDesc)
    (ov : RPAttachOverride) : AttachmentDesc :=
  let dst := if ov.overrideFlags.testBit 0 then
    { dst with format := ov.desc.format } else dst
  let dst := if ov.overrideFlags.testBit 1 then
    { dst with sampleCount := ov.desc.sampleCount } else dst
  let dst := if ov.overrideFlags.testBit 2 then
    { dst with loadOp := ov.desc.loadOp } else dst
  let dst := if ov.overrideFlags.testBit 3 then
    { dst with storeOp := ov.desc.storeOp } else dst
  let dst := if ov.overrideFlags.testBit 4 then
    { dst with stencilLoadOp := ov.desc.stencilLoadOp } else dst
  let dst := if ov.overrideFlags.testBit 5 then
    { dst with stencilStoreOp := ov.desc.stencilStoreOp } else dst
  let dst := if ov.overrideFlags.testBit 6 then
    { dst with initialState := ov.desc.initialState } else dst
  let dst := if ov.overrideFlags.testBit 7 then
    { dst with finalState := ov.desc.finalState } else dst
  dst

/-- Apply every attachment override of the request to the copied attachment
array (`pAttachments[Override.AttachmentIndex]`; an out-of-range index is
undefined behaviour in the source and a no-op here). -/
def applyRPOverrides (atts : List AttachmentDesc) :
    List RPAttachOverride → List AttachmentDesc
  | [] => atts
  | ov :: ovs =>
    let atts' :=
      match atts.get? ov.attachmentIndex with
      | none => atts
      | some a => atts.set ov.attachmentIndex (applyRPAttachmentOverride a ov)
    applyRPOverrides atts' ovs

/-- `UnpackRenderPass` over the render pass directory: requests without
attachment overrides consult the cache first and install the produced
object; requests with overrides do neither. -/
def unpackRenderPassCore (env : ReaderEnv) (data : List Nat)
    (rpMap : List (List Nat × NamedEntry)) (info : RPUnpackInfo) :
    Option Nat × List (List Nat × NamedEntry) :=
  let overrideAttachments := info.attachmentOverrides ≠ []
  match if overrideAttachments then none else getCached rpMap info.name with
  | some h => (some h, rpMap)
  | none =>
    match dirLookup rpMap info.name with
    | none => (none, rpMap)
    | some os =>
      match env.parseRP os with
      | none => (none, rpMap)
      | some desc =>
        let desc' :=
          if overrideAttachments then
            { desc with attachments :=
                applyRPOverrides desc.attachments info.attachmentOverrides }
          else desc
        let rp := env.createRenderPass desc'
        if overrideAttachments then (rp, rpMap)
        else (rp, cacheInstall rpMap info.name rp)

/-- `CreateResourceSignatures` loop: unpack every referenced signature by
name, failing on the first null result. -/
def unpackSignatureList (env : ReaderEnv) (baseOffsets : DeviceType → Nat)
    (data : List Nat) (prsMap : List (List Nat × NamedEntry)) :
    List (List Nat) → Option (List Nat) × List (List Nat × NamedEntry)
  | [] => (some [], prsMap)
  | n :: ns =>
    match unpackResourceSignature env baseOffsets data prsMap n with
    | (none, m') => (none, m')
    | (some h, m') =>
      match unpackSignatureList env baseOffsets data m' ns with
      | (none, m'') => (none, m'')
      | (some hs, m'') => (some (h :: hs), m'')

/-- `LoadShaders` loop body: resolve every shader index against the slot
table, reusing a live cached handle or building through the factory and
installing the strong reference in the slot. -/
def loadShadersGo (env : ReaderEnv) (data : List Nat) (baseOffset : Nat) :
    List Nat → List ShaderSlot → List (Nat × Nat) →
    Option (List (Nat × Nat)) × List ShaderSlot
  | [], slots, acc => (some acc, slots)
  | idx :: idxs, slots, acc =>
    match slots.get? idx with
    | none => (none, slots)
    | some slot =>
      match slot.cache with
      | some h =>
        loadShadersGo env data baseOffset idxs slots (acc ++ [(h, 0)])
      | none =>
        match readBytes data (baseOffset + slot.offset) slot.size with
        | none => (none, slots)
        | some bytes =>
          match env.createShader bytes with
          | none => (none, slots)
          | some (h, ty) =>
            loadShadersGo env data baseOffset idxs
              (slots.set idx { slot with cache := some h }) (acc ++ [(h, ty)])

/-- `LoadShaders`: check the backend base offset, decode the shader index
array from the device-specific bytes, then resolve every index. -/
def loadShaders (env : ReaderEnv) (baseOffsets : DeviceType → Nat)
    (data : List Nat) (slots : List ShaderSlot) (deviceBytes : List Nat) :
    Option (List (Nat × Nat)) × List ShaderSlot :=
  let baseOffset := baseOffsets env.devType
  if baseOffset > data.length then (none, slots)
  else
    match env.parseShaderIndices deviceBytes with
    | none => (none, slots)
    | some idxs => loadShadersGo env data baseOffset idxs slots []

/-- Assign loaded shaders to the graphics create info slots by shader type
(the `switch (Shader->GetDesc().ShaderType)`); an unsupported type aborts. -/
def assignGraphicsShaders (ci : GraphicsCI) :
    List (Nat × Nat) → Option GraphicsCI
  | [] => some ci
  | (h, ty) :: rest =>
    if ty = shaderTypeVertex then
      assignGraphicsShaders { ci with vs := some h } rest
    else if ty = shaderTypePixel then
      assignGraphicsShaders { ci with ps := some h } rest
    else if ty = shaderTypeGeometry then
      assignGraphicsShaders { ci with gs := some h } rest
    else if ty = shaderTypeHull then
      assignGraphicsShaders { ci with hs := some h } rest
    else if ty = shaderTypeDomain then
      assignGraphicsShaders { ci with ds := some h } rest
    else if ty = shaderTypeAmplification then
      assignGraphicsShaders { ci with as' := some h } rest
    else if ty = shaderTypeMesh then
      assignGraphicsShaders { ci with ms := some h } rest
    else none

/-- The name the `PSO_UNPACK_OVERRIDE_FLAG_NAME` branch substitutes
(DeviceObjectArchiveBase.cpp:691: the literal `"AZ TODO"`). -/
def azTodoName : List Nat := [65, 90, 32, 84, 79, 68, 79]

/-- Substitute the flagged fields of a graphics create info
(the `PSO_UNPACK_OVERRIDE_FLAG_*` switch, bits 0-12 in `ExtractLSB`
order). -/
def applyGraphicsOverrides (ci : GraphicsCI) (flags : Nat)
    (ov : GraphicsOverrideDesc) : GraphicsCI :=
  let ci := if flags.testBit 0 then { ci with name := azTodoName } else ci
  let ci := if flags.testBit 1 then
    { ci with rasterizer := ov.rasterizer } else ci
  let ci := if flags.testBit 2 then { ci with blend := ov.blend } else ci
  let ci := if flags.testBit 3 then
    { ci with sampleMask := ov.sampleMask } else ci
  let ci := if flags.testBit 4 then
    { ci with depthStencil := ov.depthStencil } else ci
  let ci := if flags.testBit 5 then
    { ci with inputLayout := ov.inputLayout } else ci
  let ci := if flags.testBit 6 then { ci with topology := ov.topology } else ci
  let ci := if flags.testBit 7 then
    { ci with numViewports := ov.numViewports } else ci
  let ci := if flags.testBit 8 then
    { ci with numRenderTargets := ov.numRenderTargets,
              rtvFormats := ov.rtvFormats } else ci
  let ci := if flags.testBit 9 then
    { ci with renderPassRef := ov.renderPass,
              subpassIndex := ov.subpassIndex } else ci
  let ci := if flags.testBit 10 then
    { ci with shadingRate := ov.shadingRate } else ci
  let ci := if flags.testBit 11 then
    { ci with dsvFormat := ov.dsvFormat } else ci
  let ci := if flags.testBit 12 then
    { ci with sampleDesc := ov.sampleDesc } else ci
  ci

/-- Substitute the flagged fields of a tile create info (the tile override
switch handles only the name, rasterizer and render-target flags). -/
def applyTileOverrides (ci : TileCI) (flags : Nat) (ov : TileOverrideDesc) :
    TileCI :=
  let ci := if flags.testBit 0 then { ci with name := azTodoName } else ci
  let ci := if flags.testBit 1 then
    { ci with sampleCount := ov.sampleCount } else ci
  let ci := if flags.testBit 8 then
    { ci with numRenderTargets := ov.numRenderTargets,
              rtvFormats := ov.rtvFormats } else ci
  ci

/-- Result of a pipeline materialization: the produced handle and the state
pieces the materialization may touch (render pass cache, signature cache,
shader slots) — never the pipeline's own directory-and-cache map. -/
structure MaterializeResult where
  result : Option Nat
  rpMap : List (List Nat × NamedEntry)
  prsMap : List (List Nat × NamedEntry)
  shaders : List ShaderSlot

/-- The materialization path of `UnpackGraphicsPSO` (everything after the
skipped-or-missed cache check and before the final `CacheResource`):
`ReadPSOData`, `CreateRenderPass`, `CreateResourceSignatures`,
`LoadDeviceSpecificData`, `LoadShaders`, shader slot assignment, override
application and the factory call. -/
def materializeGraphics (env : ReaderEnv) (data : List Nat)
    (baseOffsets : DeviceType → Nat) (dir : Option (Nat × Nat))
    (rpMap prsMap : List (List Nat × NamedEntry)) (slots : List ShaderSlot)
    (info : PSOUnpackInfo) : MaterializeResult :=
  match dir with
  | none => ⟨none, rpMap, prsMap, slots⟩
  | some os =>
    match env.parseGraphics os with
    | none => ⟨none, rpMap, prsMap, slots⟩
    | some parsed =>
      let rpStep : Option (Option Nat) × List (List Nat × NamedEntry) :=
        if parsed.renderPassName = [] then (some none, rpMap)
        else
          match unpackRenderPassCore env data rpMap
              ⟨parsed.renderPassName, []⟩ with
          | (none, m') => (none, m')
          | (some h, m') => (some (some h), m')
      match rpStep with
      | (none, rpMap') => ⟨none, rpMap', prsMap, slots⟩
      | (some rpRef, rpMap') =>
        match unpackSignatureList env baseOffsets data prsMap
            parsed.prsNames with
        | (none, prsMap') => ⟨none, rpMap', prsMap', slots⟩
        | (some _, prsMap') =>
          let ci₀ := { parsed.ci with
            renderPassRef := rpRef,
            srbGranularity := info.srbGranularity,
            contextMask := info.contextMask }
          match loadDeviceSpecificData data baseOffsets env.devType
              (parsed.deviceSize env.devType)
              (parsed.deviceOffset env.devType) with
          | none => ⟨none, rpMap', prsMap', slots⟩
          | some deviceBytes =>
            match loadShaders env baseOffsets data slots deviceBytes with
            | (none, slots') => ⟨none, rpMap', prsMap', slots'⟩
            | (some shaderHandles, slots') =>
              match assignGraphicsShaders ci₀ shaderHandles with
              | none => ⟨none, rpMap', prsMap', slots'⟩
              | some ci₁ =>
                let ci₂ := applyGraphicsOverrides ci₁ info.overrideFlags
                  info.graphicsDesc
                ⟨env.createGraphicsPipeline ci₂, rpMap', prsMap', slots'⟩

/-- The materialization path of `UnpackTilePSO`. -/
def materializeTile (env : ReaderEnv) (data : List Nat)
    (baseOffsets : DeviceType → Nat) (dir : Option (Nat × Nat))
    (prsMap : List (List Nat × NamedEntry)) (slots : List ShaderSlot)
    (info : PSOUnpackInfo) : Option Nat × List (List Nat × NamedEntry) ×
      List ShaderSlot :=
  match dir with
  | none => (none, prsMap, slots)
  | some os =>
    match env.parseTile os with
    | none => (none, prsMap, slots)
    | some parsed =>
      match unpackSignatureList env baseOffsets data prsMap
          parsed.prsNames with
      | (none, prsMap') => (none, prsMap', slots)
      | (some _, prsMap') =>
        let ci₀ := { parsed.ci with
          srbGranularity := info.srbGranularity,
          contextMask := info.contextMask }
        match loadDeviceSpecificData data baseOffsets env.devType
            (parsed.deviceSize env.devType)
            (parsed.deviceOffset env.devType) with
        | none => (none, prsMap', slots)
        | some deviceBytes =>
          match loadShaders env baseOffsets data slots deviceBytes with
          | (none, slots') => (none, prsMap', slots')
          | (some shaderHandles, slots') =>
            match shaderHandles with
            | [(h, ty)] =>
              if ty = shaderTypeTile then
                let ci₁ := applyTileOverrides { ci₀ with ts := some h }
                  info.overrideFlags info.tileDesc
                (env.createTilePipeline ci₁, prsMap', slots')
              else (none, prsMap', slots')
            | _ => (none, prsMap', slots')

/-- `UnpackGraphicsPSO` on the reader state: requests without override flags
consult the weak cache first and install the produced object afterwards;
requests with override flags do neither. -/
def unpackGraphicsPSO (env : ReaderEnv) (data : List Nat) (st : ReaderState)
    (info : PSOUnpackInfo) : Option Nat × ReaderState :=
  let hasOverride := info.overrideFlags ≠ 0
  match if hasOverride then none else getCached st.graphicsMap info.name with
  | some h => (some h, st)
  | none =>
    let r := materializeGraphics env data st.baseOffsets
      (dirLookup st.graphicsMap info.name) st.rpMap st.prsMap st.shaders info
    if hasOverride then
      (r.result,
        { st with
            rpMap := r.rpMap
            prsMap := r.prsMap
            shaders := r.shaders })
    else
      (r.result,
        { st with
            graphicsMap := cacheInstall st.graphicsMap info.name r.result
            rpMap := r.rpMap
            prsMap := r.prsMap
            shaders := r.shaders })

/-- `UnpackTilePSO` on the reader state. -/
def unpackTilePSO (env : ReaderEnv) (data : List Nat) (st : ReaderState)
    (info : PSOUnpackInfo) : Option Nat × ReaderState :=
  let hasOverride := info.overrideFlags ≠ 0
  match if hasOverride then none else getCached st.tileMap info.name with
  | some h => (some h, st)
  | none =>
    let r := materializeTile env data st.baseOffsets
      (dirLookup st.tileMap info.name) st.prsMap st.shaders info
    if hasOverride then
      (r.1, { st with prsMap := r.2.1, shaders := r.2.2 })
    else
      (r.1,
        { st with
            tileMap := cacheInstall st.tileMap info.name r.1
            prsMap := r.2.1
            shaders := r.2.2 })

/-- `UnpackRenderPass` on the reader state. -/
def unpackRenderPass (env : ReaderEnv) (data : List Nat) (st : ReaderState)
    (info : RPUnpackInfo) : Option Nat × ReaderState :=
  let r := unpackRenderPassCore env data st.rpMap info
  (r.1, { st with rpMap := r.2 })

/-- `ClearResourceCache`: release the cached shader handle of every shader
slot (under the shaders guard); nothing else is touched. -/
def clearResourceCache (st : ReaderState) : ReaderState :=
  { st with shaders := st.shaders.map fun s => { s with cache := none } }

/-! ### Failure characterization of reader construction -/

/-- A chunk kind the constructor switch recognizes (the reserved kind 0 and
every kind past `Shaders = 8` hit the `default:` branch). -/
def recognizedChunkKind (t : Nat) : Bool :=
  decide (1 ≤ t) && decide (t ≤ 8)

/-- Whether processing the body of one chunk throws, independently of the
reader state: a failed body read, a debug-info decode overrun, a
named-resource bounds violation, or an unrecognized kind. -/
def chunkBodyFailsB (data : List Nat) (ch : ChunkHeader) : Bool :=
  match ch.type with
  | 1 =>
    match readBytes data ch.offset ch.size with
    | none => true
    | some body =>
      match serReadSchema [.u32, .str] body with
      | some ([.u32 _, .str _], _) => false
      | _ => true
  | 2 | 3 | 4 | 5 | 6 | 7 =>
    match readBytes data ch.offset ch.size with
    | none => true
    | some body => isErrB (readNamedResources data.length body)
  | 8 => (readBytes data ch.offset shadersDataHeaderSize).isNone
  | _ => true

/-- The chunk-loop failure condition: walking the chunk directory with the
set of already seen kinds, some chunk repeats a seen kind, carries an
unrecognized kind, or has a failing body. -/
def chunksFail (data : List Nat) : List ChunkHeader → List Nat → Prop
  | [], _ => False
  | ch :: rest, processed =>
    ch.type ∈ processed ∨
    recognizedChunkKind ch.type = false ∨
    chunkBodyFailsB data ch = true ∨
    chunksFail data rest (ch.type :: processed)

/-- The complete failure condition of reader construction: a failed header
read, a magic or version mismatch, a failed chunk-directory read, or a chunk
that repeats an earlier kind, carries an unrecognized kind, or whose body
fails to parse. -/
def constructFailureSpec (data : List Nat) : Prop :=
  parseArchiveHeader data = none ∨
  ∃ hdr, parseArchiveHeader data = some hdr ∧
    (hdr.magic ≠ headerMagicNumber ∨ hdr.version ≠ headerVersion ∨
      parseChunkHeaders data hdr.numChunks = none ∨
      ∃ chunks, parseChunkHeaders data hdr.numChunks = some chunks ∧
        chunksFail data chunks [])

/-- The four failure conditions claimed for reader construction: bad magic,
unsupported version, a repeated chunk kind, or a chunk kind outside the nine
kinds of the `ChunkType` enumeration. -/
def claimedFailureConditions (data : List Nat) : Bool :=
  match parseArchiveHeader data with
  | none => false
  | some hdr =>
    (hdr.magic != headerMagicNumber) || (hdr.version != headerVersion) ||
    (match parseChunkHeaders data hdr.numChunks with
     | none => false
     | some chunks =>
       !(decide (chunks.map ChunkHeader.type).Nodup) ||
       chunks.any (fun ch => decide (ch.type ≥ 9)))

/-! ### Concrete example inputs for counterexamples and witnesses -/

/-- A 72-byte archive: correct magic and version, one resource-signature
chunk whose single entry has a well-formed name but a data range
(offset 1000, size 8) far past the end of the archive. -/
def exArchiveBytes : List Nat :=
  [67, 82, 65, 84, 78, 76, 73, 68,
   1, 0, 0, 0,
   1, 0, 0, 0,
   255, 255, 255, 255, 255, 255, 255, 255, 255, 255, 255, 255,
   255, 255, 255, 255, 255, 255, 255, 255, 255, 255, 255, 255,
   2, 0, 0, 0, 20, 0, 0, 0, 52, 0, 0, 0,
   1, 0, 0, 0, 4, 0, 0, 0, 8, 0, 0, 0, 232, 3, 0, 0,
   97, 98, 99, 0]

/-- A named-resource chunk body whose single entry has data offset
`0xFFFFFFFF` and data size 2: the mathematical data range ends at
4294967297, but the 32-bit sum wraps to 1. -/
def wrapBody : List Nat :=
  [1, 0, 0, 0, 1, 0, 0, 0, 2, 0, 0, 0, 255, 255, 255, 255, 0]

/-- An example resource signature whose iOS and macOS per-device bytes
differ (iOS carries `[7, 7]`, macOS carries `[9]`). -/
def exPRS : PRSObj :=
  { id := 1, name := "S", bindingIndex := 0, sharedData := [5],
    deviceData := fun t =>
      match t with
      | .Metal_iOS => [7, 7]
      | .Metal_MacOS => [9]
      | _ => [] }

/-- A second signature object (a distinct id) carrying the same name. -/
def exPRS2 : PRSObj :=
  { exPRS with id := 2 }

/-- A writer signature registry already holding `exPRS`. -/
def exPRSState : PRSState :=
  { prsMap := [("S", exPRS)], prsCache := [1] }

/-- Archiver environment whose patcher always fails. -/
def cxArchiverEnv : ArchiverEnv :=
  { validFlags := [.GL],
    validateCI := true,
    patch := fun _ s => (false, s),
    defaultPRS := none,
    psoBlob := [] }

/-- Create info of a pipeline named `P` with one resource signature. -/
def cxPipelineCI : PipelineCI :=
  { name := some "P", resourceSignatures := some [some exPRS],
    renderPass := none }

/-- Archive info requesting the OpenGL backend. -/
def cxArchiveInfo : PipelineArchiveInfo := { deviceFlags := [.GL] }

/-- Reader environment whose oracles all fail (sufficient for the cache
isolation witnesses, which never reach them). -/
def wReaderEnv : ReaderEnv :=
  { archiveSize := 0,
    readAt := fun _ _ => none,
    devType := .OpenGL,
    parseGraphics := fun _ => none,
    parseTile := fun _ => none,
    parseRP := fun _ => none,
    parsePRS := fun _ => none,
    parseShaderIndices := fun _ => none,
    createShader := fun _ => none,
    createGraphicsPipeline := fun _ => none,
    createTilePipeline := fun _ => none,
    createRenderPass := fun _ => none,
    createSignature := fun _ _ => none }

/-- A reader state with one cached entry in every named directory. -/
def wReaderState : ReaderState :=
  { prsMap := [([80], ⟨0, 4, some 11⟩)],
    rpMap := [([80], ⟨4, 4, some 12⟩)],
    graphicsMap := [([80], ⟨8, 4, some 13⟩)],
    computeMap := [([80], ⟨12, 4, some 14⟩)],
    tileMap := [([80], ⟨16, 4, some 15⟩)],
    rayTracingMap := [([80], ⟨20, 4, some 16⟩)],
    shaders := [⟨0, 4, some 21⟩, ⟨4, 4, none⟩],
    baseOffsets := fun _ => 0,
    debugAPIVersion := 3 }

/-- A graphics/tile unpack request for name `P` with one override bit set. -/
def wPSOInfo : PSOUnpackInfo :=
  { name := [80], overrideFlags := 4,
    graphicsDesc := ⟨0, 0, 0, 0, 0, 0, 0, 0, 0, none, 0, 0, 0, 0⟩,
    tileDesc := ⟨0, 0, 0⟩,
    srbGranularity := 1, contextMask := 1 }

/-- A render pass unpack request for name `P` with one attachment
override. -/
def wRPInfo : RPUnpackInfo :=
  { name := [80],
    attachmentOverrides := [⟨0, 1, ⟨1, 0, 0, 0, 0, 0, 0, 0⟩⟩] }

/-- An example schema: a 32-bit integer, a string, an array of 32-bit
integers (the shape of the `S1` seed scenario). -/
def exSchema : List SType := [.u32, .str, .arr .u32]

/-- Example values of `exSchema`. -/
def exValues : List SVal :=
  [.u32 3, .str (some [82, 49]), .arr [.u32 1, .u32 2]]

/-- An example shader call: vertex shader source `"A"` with entry point
`"m"` (the `S2` seed scenario shape). -/
def exShaderCall : ShaderCall :=
  .source 1 (some [109]) 0 0 false none [65]

/-- An example data header with empty slots. -/
def exDataHeader : DataHeader := ⟨2, fun _ => 0, fun _ => 0⟩

/-- A writer already holding `exPRS` under its name. -/
def exWriterWithPRS : WriterState :=
  { WriterState.empty with prs := exPRSState }

/-- The witness reader state with the graphics cache entry replaced. -/
def wReaderStateG : ReaderState :=
  { wReaderState with
      graphicsMap := setCacheEntry wReaderState.graphicsMap wPSOInfo.name (some 99) }

/-- The witness reader state with the tile cache entry replaced. -/
def wReaderStateT : ReaderState :=
  { wReaderState with
      tileMap := setCacheEntry wReaderState.tileMap wPSOInfo.name (some 99) }

/-- The witness reader state with the render pass cache entry replaced. -/
def wReaderStateR : ReaderState :=
  { wReaderState with
      rpMap := setCacheEntry wReaderState.rpMap wRPInfo.name (some 99) }

/-! ### Serializer theorems -/

theorem bytesLE_length (w : Nat) : ∀ v, (bytesLE w v).length = w := by
  induction w with
  | zero => intro v; rfl
  | succ w ih => intro v; simp [bytesLE, ih]

theorem decodeLE_bytesLE_append (w : Nat) : ∀ (v : Nat) (rest : List Nat),
    decodeLE w (bytesLE w v ++ rest) = v % 256 ^ w := by
  induction w with
  | zero => intro v rest; simp [bytesLE, decodeLE, Nat.mod_one]
  | succ w ih =>
    intro v rest
    simp only [bytesLE, List.cons_append, decodeLE, List.append_eq, ih]
    rw [Nat.mod_mod_of_dvd v dvd_rfl, Nat.pow_succ', Nat.mod_mul]

theorem readUint_bytesLE (w v : Nat) (rest : List Nat) :
    readUint w (bytesLE w v ++ rest) = some (v % 256 ^ w, rest) := by
  have hlen : (bytesLE w v ++ rest).length = w + rest.length := by
    simp [bytesLE_length]
  have hdrop : (bytesLE w v ++ rest).drop w = rest := by
    have := List.drop_left (bytesLE w v) rest
    rwa [bytesLE_length] at this
  simp [readUint, hlen, hdrop, decodeLE_bytesLE_append]

mutual

theorem serMeasure_eq_write_length (v : SVal) :
    serMeasure v = (serWrite v).length := by
  cases v with
  | u8 n => simp [serMeasure, serWrite, bytesLE_length]
  | u16 n => simp [serMeasure, serWrite, bytesLE_length]
  | u32 n => simp [serMeasure, serWrite, bytesLE_length]
  | u64 n => simp [serMeasure, serWrite, bytesLE_length]
  | str s =>
    cases s with
    | none => simp [serMeasure, serWrite, bytesLE_length]
    | some cs => simp [serMeasure, serWrite, bytesLE_length]
  | arr es =>
    simp [serMeasure, serWrite, bytesLE_length,
      serMeasureList_eq_writeList_length es]

theorem serMeasureList_eq_writeList_length (vs : List SVal) :
    serMeasureList vs = (serWriteList vs).length := by
  cases vs with
  | nil => rfl
  | cons v vs =>
    simp [serMeasureList, serWriteList, serMeasure_eq_write_length v,
      serMeasureList_eq_writeList_length vs]

end

mutual

theorem serRead_serWrite (t : SType) (v : SVal) (rest : List Nat)
    (ht : typeCheck t v = true) (hw : serWf v = true) :
    serRead t (serWrite v ++ rest) = some (v, rest) := by
  cases t <;> cases v <;> simp only [typeCheck, Bool.false_eq_true] at ht
  case u8.u8 n =>
    have hn : n < 256 := by simpa [serWf] using hw
    simp [serWrite, serRead, readUint_bytesLE, hn]
  case u16.u16 n =>
    have hn : n < 65536 := by simpa [serWf] using hw
    simp [serWrite, serRead, readUint_bytesLE, hn]
  case u32.u32 n =>
    have hn : n < 4294967296 := by simpa [serWf, u32Mod] using hw
    simp [serWrite, serRead, readUint_bytesLE, hn]
  case u64.u64 n =>
    have hn : n < 18446744073709551616 := by simpa [serWf] using hw
    simp [serWrite, serRead, readUint_bytesLE, hn]
  case str.str s =>
    cases s with
    | none => simp [serWrite, serRead, readUint_bytesLE]
    | some cs =>
      have hlen : cs.length + 1 < 4294967296 := by
        have h := hw
        simp only [serWf, Bool.and_eq_true, decide_eq_true_eq, u32Mod] at h
        exact h.1
      have hmod : (cs.length + 1) % 4294967296 = cs.length + 1 :=
        Nat.mod_eq_of_lt hlen
      have htake : (cs ++ 0 :: rest).take cs.length = cs := by
        have h := List.take_left cs (0 :: rest)
        simpa using h
      have hdrop : (cs ++ 0 :: rest).drop (cs.length + 1) = rest := by
        have h := List.drop_left (cs ++ [0]) rest
        simpa using h
      have hle : cs.length + 1 ≤ cs.length + (rest.length + 1) := by omega
      simp [serWrite, serRead, List.append_assoc, readUint_bytesLE, hmod,
        hle, htake, hdrop]
  case arr.arr elemT es =>
    have hw' := hw
    simp only [serWf, Bool.and_eq_true, decide_eq_true_eq, u32Mod] at hw'
    have hmod : es.length % 4294967296 = es.length := Nat.mod_eq_of_lt hw'.1
    have hmany := serReadMany_serWriteList elemT es rest ht hw'.2
    simp [serWrite, serRead, List.append_assoc, readUint_bytesLE, hmod, hmany]

theorem serReadMany_serWriteList (elemT : SType) (es : List SVal)
    (rest : List Nat) (ht : typeCheckMany elemT es = true)
    (hw : serWfList es = true) :
    serReadMany elemT es.length (serWriteList es ++ rest) = some (es, rest) := by
  cases es with
  | nil => simp [serWriteList, serReadMany]
  | cons v vs =>
    have ht' : typeCheck elemT v = true ∧ typeCheckMany elemT vs = true := by
      simpa [typeCheckMany] using ht
    have hw' : serWf v = true ∧ serWfList vs = true := by
      simpa [serWfList] using hw
    have h1 := serRead_serWrite elemT v (serWriteList vs ++ rest) ht'.1 hw'.1
    have h2 := serReadMany_serWriteList elemT vs rest ht'.2 hw'.2
    simp [serWriteList, List.append_assoc, serReadMany, h1, h2]

end

theorem serReadSchema_serWriteList (ts : List SType) :
    ∀ (vs : List SVal) (rest : List Nat),
    typeCheckSchema ts vs = true → serWfList vs = true →
    serReadSchema ts (serWriteList vs ++ rest) = some (vs, rest) := by
  induction ts with
  | nil =>
    intro vs rest ht hw
    cases vs with
    | nil => simp [serWriteList, serReadSchema]
    | cons v vs => simp [typeCheckSchema] at ht
  | cons t ts ih =>
    intro vs rest ht hw
    cases vs with
    | nil => simp [typeCheckSchema] at ht
    | cons v vs =>
      have ht' : typeCheck t v = true ∧ typeCheckSchema ts vs = true := by
        simpa [typeCheckSchema] using ht
      have hw' : serWf v = true ∧ serWfList vs = true := by
        simpa [serWfList] using hw
      have h1 := serRead_serWrite t v (serWriteList vs ++ rest) ht'.1 hw'.1
      have h2 := ih vs rest ht'.2 hw'.2
      simp [serWriteList, List.append_assoc, serReadSchema, h1, h2]

/-- C4: for every serializable schema and every input value, Measure mode
yields a byte count equal to the number of bytes Write mode emits for the
same values. -/
theorem c4_measure_equals_write_size (vs : List SVal) :
    serMeasureList vs = (serWriteList vs).length :=
  serMeasureList_eq_writeList_length vs

/-- C5: writing well-formed values of any serializable schema with the
Write-mode serializer produces exactly the measured number of bytes, and
reading that buffer back with the Read-mode serializer yields the original
values with the read cursor exactly at the buffer end (empty remainder). -/
theorem c5_write_read_roundtrip (ts : List SType) (vs : List SVal)
    (ht : typeCheckSchema ts vs = true) (hw : serWfList vs = true) :
    serMeasureList vs = (serWriteList vs).length ∧
    serReadSchema ts (serWriteList vs) = some (vs, []) := by
  refine ⟨serMeasureList_eq_writeList_length vs, ?_⟩
  have := serReadSchema_serWriteList ts vs [] ht hw
  simpa using this

/-- Witness for C5 at the concrete schema `exSchema` and values
`exValues`. -/
theorem c5_witness :
    typeCheckSchema exSchema exValues = true ∧
    serWfList exValues = true ∧
    serReadSchema exSchema (serWriteList exValues) = some (exValues, []) :=
  ⟨by decide, by decide,
    (c5_write_read_roundtrip exSchema exValues (by decide) (by decide)).2⟩

/-! ### Writer theorems -/

/-- C10: `clear_cache` releases only the cached shader handles of the shader
index table; every named-resource directory — entries and weak caches alike —
the base offsets and the debug info are unchanged, and the shader slots keep
their offsets and sizes. -/
theorem c10_clear_cache_releases_only_shader_handles (st : ReaderState) :
    (clearResourceCache st).prsMap = st.prsMap ∧
    (clearResourceCache st).rpMap = st.rpMap ∧
    (clearResourceCache st).graphicsMap = st.graphicsMap ∧
    (clearResourceCache st).computeMap = st.computeMap ∧
    (clearResourceCache st).tileMap = st.tileMap ∧
    (clearResourceCache st).rayTracingMap = st.rayTracingMap ∧
    (clearResourceCache st).baseOffsets = st.baseOffsets ∧
    (clearResourceCache st).debugAPIVersion = st.debugAPIVersion ∧
    (clearResourceCache st).shaders.map (fun s => (s.offset, s.size)) =
      st.shaders.map (fun s => (s.offset, s.size)) ∧
    ∀ s ∈ (clearResourceCache st).shaders, s.cache = none := by
  refine ⟨rfl, rfl, rfl, rfl, rfl, rfl, rfl, rfl, ?_, ?_⟩
  · simp [clearResourceCache, List.map_map]
  · intro s hs
    simp only [clearResourceCache, List.mem_map] at hs
    obtain ⟨a, -, rfl⟩ := hs
    rfl

/-- C9: for a signature's per-backend entry of the macOS backend, both the
space reserved and the bytes written are exactly the signature's iOS bytes,
while the header records the size and the offset under the macOS slot (and
touches no other slot). -/
theorem c9_macos_slot_carries_ios_bytes (prs : PRSObj) (hdr : DataHeader)
    (dst : List Nat) :
    reservePRSDeviceSpace prs .Metal_MacOS =
      (prs.deviceData .Metal_iOS).length ∧
    (writePRSPerDeviceData hdr .Metal_MacOS prs dst).2 =
      dst ++ prs.deviceData .Metal_iOS ∧
    (prs.deviceData .Metal_iOS ≠ [] →
      (writePRSPerDeviceData hdr .Metal_MacOS prs dst).1.deviceSize
          .Metal_MacOS = (prs.deviceData .Metal_iOS).length ∧
      (writePRSPerDeviceData hdr .Metal_MacOS prs dst).1.deviceOffset
          .Metal_MacOS = dst.length ∧
      ∀ t, t ≠ .Metal_MacOS →
        (writePRSPerDeviceData hdr .Metal_MacOS prs dst).1.deviceSize t =
            hdr.deviceSize t ∧
        (writePRSPerDeviceData hdr .Metal_MacOS prs dst).1.deviceOffset t =
            hdr.deviceOffset t) := by
  by_cases h : prs.deviceData .Metal_iOS = []
  · refine ⟨?_, ?_, fun hne => absurd h hne⟩
    · simp [reservePRSDeviceSpace, prsDeviceTypeFor, h]
    · simp [writePRSPerDeviceData, writePerDeviceData, prsDeviceTypeFor, h]
  · refine ⟨?_, ?_, fun _ => ⟨?_, ?_, ?_⟩⟩
    · simp [reservePRSDeviceSpace, prsDeviceTypeFor]
    · simp [writePRSPerDeviceData, writePerDeviceData, prsDeviceTypeFor, h]
    · simp [writePRSPerDeviceData, writePerDeviceData, prsDeviceTypeFor, h,
        DataHeader.setSize, DataHeader.setOffset]
    · simp [writePRSPerDeviceData, writePerDeviceData, prsDeviceTypeFor, h,
        DataHeader.setSize, DataHeader.setOffset]
    · intro t hne
      constructor <;>
        simp [writePRSPerDeviceData, writePerDeviceData, prsDeviceTypeFor, h,
          DataHeader.setSize, DataHeader.setOffset, hne]

/-- Witness for C9 at the concrete signature `exPRS` (whose iOS bytes
`[7, 7]` differ from its macOS bytes `[9]`). -/
theorem c9_witness :
    (writePRSPerDeviceData exDataHeader .Metal_MacOS exPRS [3]).2 =
      [3] ++ exPRS.deviceData .Metal_iOS ∧
    (writePRSPerDeviceData exDataHeader .Metal_MacOS exPRS [3]).1.deviceSize
      .Metal_MacOS = (exPRS.deviceData .Metal_iOS).length :=
  ⟨(c9_macos_slot_carries_ios_bytes exPRS exDataHeader [3]).2.1,
    ((c9_macos_slot_carries_ios_bytes exPRS exDataHeader [3]).2.2
      (by decide)).1⟩

/-- C2: `add_resource_signature` with a non-null signature is a no-op
success when an entry with the same name and the identical object exists;
it fails and leaves the registry unchanged when an entry with the same name
but a different object exists; otherwise it inserts the signature under its
name and succeeds. -/
theorem c2_add_resource_signature_contract (st : WriterState) (p : PRSObj) :
    (∀ q, alFind st.prs.prsMap p.name = some q →
      ((q.id = p.id → addPipelineResourceSignature st (some p) = (true, st)) ∧
       (q.id ≠ p.id →
         addPipelineResourceSignature st (some p) = (false, st)))) ∧
    (alFind st.prs.prsMap p.name = none →
      (addPipelineResourceSignature st (some p)).1 = true ∧
      (addPipelineResourceSignature st (some p)).2.prs.prsMap =
        (p.name, p) :: st.prs.prsMap) := by
  constructor
  · intro q hq
    constructor
    · intro hid
      simp [addPipelineResourceSignature, addPRS, hq, hid]
    · intro hid
      simp [addPipelineResourceSignature, addPRS, hq, hid]
  · intro hq
    constructor
    · simp [addPipelineResourceSignature, addPRS, hq]
    · simp [addPipelineResourceSignature, addPRS, hq]

/-- Witness for C2: re-adding `exPRS` under its registered name is a no-op
success; adding the distinct object `exPRS2` under the same name fails and
leaves the writer unchanged. -/
theorem c2_witness :
    addPipelineResourceSignature exWriterWithPRS (some exPRS) =
      (true, exWriterWithPRS) ∧
    addPipelineResourceSignature exWriterWithPRS (some exPRS2) =
      (false, exWriterWithPRS) :=
  ⟨((c2_add_resource_signature_contract exWriterWithPRS exPRS).1 exPRS
      rfl).1 rfl,
    ((c2_add_resource_signature_contract exWriterWithPRS exPRS2).1 exPRS
      rfl).2 (by decide)⟩

theorem shadersWF_find_none (sd : ShadersData) (hwf : shadersWF sd)
    (k : List Nat) (hk : k ∉ sd.list) : alFind sd.map k = none := by
  cases h : alFind sd.map k with
  | none => rfl
  | some i => exact absurd (List.get?_mem (hwf.1 k i h)) hk

theorem shadersWF_empty : shadersWF ShadersData.empty := by
  constructor
  · intro k i h
    simp [ShadersData.empty, alFind] at h
  · intro i h
    simp [ShadersData.empty] at h

/-- C3: two `serialize_shader` calls with byte-identical serialized content
keys, the first of which introduces the shader, leave the backend's shader
list with exactly one new entry and return equal indices (the list position
of that entry); moreover, for every call on a consistent registry the
returned index is the position of the call's key in the backend's shader
list. -/
theorem c3_shader_dedup_determinism (sd : ShadersData) (c₁ c₂ : ShaderCall)
    (hwf : shadersWF sd) (hkey : c₁.key = c₂.key)
    (hfresh : c₁.key ∉ sd.list) :
    (runShaderCall (runShaderCall sd c₁).2 c₂).2.list =
      sd.list ++ [c₁.key] ∧
    (runShaderCall sd c₁).1 = (runShaderCall (runShaderCall sd c₁).2 c₂).1 ∧
    (runShaderCall sd c₁).1 = sd.list.length ∧
    (∀ (sd' : ShadersData) (c' : ShaderCall), shadersWF sd' →
      (runShaderCall sd' c').2.list.get? (runShaderCall sd' c').1 =
        some c'.key) := by
  have hfind : alFind sd.map c₁.key = none :=
    shadersWF_find_none sd hwf c₁.key hfresh
  have h1 : runShaderCall sd c₁ =
      (sd.list.length,
        ⟨(c₁.key, sd.list.length) :: sd.map, sd.list ++ [c₁.key]⟩) := by
    simp [runShaderCall, shaderEmplace, hfind]
  have h2 : runShaderCall
      (⟨(c₁.key, sd.list.length) :: sd.map, sd.list ++ [c₁.key]⟩ :
        ShadersData) c₂ =
      (sd.list.length,
        ⟨(c₁.key, sd.list.length) :: sd.map, sd.list ++ [c₁.key]⟩) := by
    simp [runShaderCall, shaderEmplace, alFind, ← hkey]
  refine ⟨?_, ?_, ?_, ?_⟩
  · rw [h1]
    simp [h2]
  · rw [h1]
    simp [h2]
  · rw [h1]
  · intro sd' c' hwf'
    cases h : alFind sd'.map c'.key with
    | some i =>
      have hrun : runShaderCall sd' c' = (i, sd') := by
        simp [runShaderCall, shaderEmplace, h]
      rw [hrun]
      exact hwf'.1 c'.key i h
    | none =>
      have hrun : runShaderCall sd' c' =
          (sd'.list.length,
            ⟨(c'.key, sd'.list.length) :: sd'.map, sd'.list ++ [c'.key]⟩) := by
        simp [runShaderCall, shaderEmplace, h]
      rw [hrun]
      exact List.get?_concat_length sd'.list c'.key

/-- Witness for C3: serializing the same shader source twice into an empty
backend registry yields index 0 twice and a one-entry list (the `S2` seed
scenario). -/
theorem c3_witness :
    (runShaderCall (runShaderCall ShadersData.empty exShaderCall).2
        exShaderCall).2.list = ShadersData.empty.list ++ [exShaderCall.key] ∧
    (runShaderCall ShadersData.empty exShaderCall).1 =
      (runShaderCall (runShaderCall ShadersData.empty exShaderCall).2
        exShaderCall).1 ∧
    (runShaderCall ShadersData.empty exShaderCall).1 = 0 :=
  ⟨(c3_shader_dedup_determinism ShadersData.empty exShaderCall exShaderCall
      shadersWF_empty rfl (by decide)).1,
    (c3_shader_dedup_determinism ShadersData.empty exShaderCall exShaderCall
      shadersWF_empty rfl (by decide)).2.1,
    (c3_shader_dedup_determinism ShadersData.empty exShaderCall exShaderCall
      shadersWF_empty rfl (by decide)).2.2.1⟩

theorem addRenderPass_preserves (st : WriterState) (rp : Option RPObj) :
    (addRenderPass st rp).2.graphicsPSOMap = st.graphicsPSOMap ∧
    (addRenderPass st rp).2.prs = st.prs := by
  cases rp with
  | none => exact ⟨rfl, rfl⟩
  | some pass =>
    simp only [addRenderPass]
    cases h : alFind st.rpMap pass.name with
    | none => exact ⟨rfl, rfl⟩
    | some existingId =>
      by_cases hid : existingId ≠ pass.id <;> simp [hid]

theorem serializePSOStep_patch_failure (env : ArchiverEnv)
    (pm : List (String × PSOData)) (prs : PRSState) (ci : PipelineCI)
    (ai : PipelineArchiveInfo) (n : String)
    (hname : ci.name = some n)
    (hval : validateArchiveInfo env ci ai = true)
    (hfresh : alFind pm n = none)
    (hpatch : (patchLoop env ai.deviceFlags prs).1 = false) :
    (serializePSOStep env pm prs ci ai).1 = false ∧
    (alFind (serializePSOStep env pm prs ci ai).2.1 n).isSome = true := by
  simp only [serializePSOStep, hval, hname, hfresh]
  cases hp : patchLoop env ai.deviceFlags prs with
  | mk b prs₁ =>
    have hb : b = false := by rw [hp] at hpatch; exact hpatch
    subst hb
    simp [alFind]

/-- C1: corrected form of the partial-patching claim: when validation
passes, the name is fresh, and patching fails for some backend of the
requested set, every pipeline add operation returns `false` but the
pipeline's entry, emplaced before patching, REMAINS in the writer's
pipeline map (it is not removed). -/
theorem c1_patch_failure_keeps_entry (k : PSOKind) (env : ArchiverEnv)
    (st : WriterState) (ci : PipelineCI) (ai : PipelineArchiveInfo)
    (n : String)
    (hname : ci.name = some n)
    (hval : validateArchiveInfo env ci ai = true)
    (hfresh : alFind (psoMapOf k st) n = none)
    (hrp : k = PSOKind.graphics →
      (match ci.renderPass with
       | some rp => (addRenderPass st (some rp)).1
       | none => true) = true)
    (hpatch : (patchLoop env ai.deviceFlags st.prs).1 = false) :
    (addPipelineState k env st ci ai).1 = false ∧
    (alFind (psoMapOf k (addPipelineState k env st ci ai).2) n).isSome =
      true := by
  cases k with
  | graphics =>
    have hrp' := hrp rfl
    cases hr : ci.renderPass with
    | none =>
      have h := serializePSOStep_patch_failure env st.graphicsPSOMap st.prs
        ci ai n hname hval hfresh hpatch
      simp only [addPipelineState, addGraphicsPipelineState, hr]
      simpa [psoMapOf] using h
    | some rp =>
      rw [hr] at hrp'
      simp only at hrp'
      have hpres := addRenderPass_preserves st (some rp)
      have h := serializePSOStep_patch_failure env
        (addRenderPass st (some rp)).2.graphicsPSOMap
        (addRenderPass st (some rp)).2.prs ci ai n hname hval
        (by rw [hpres.1]; simpa [psoMapOf] using hfresh)
        (by rw [hpres.2]; exact hpatch)
      simp only [addPipelineState, addGraphicsPipelineState, hr, hrp']
      simpa [psoMapOf, hrp'] using h
  | compute =>
    have h := serializePSOStep_patch_failure env st.computePSOMap st.prs
      ci ai n hname hval hfresh hpatch
    simpa [addPipelineState, addComputePipelineState, psoMapOf] using h
  | tile =>
    have h := serializePSOStep_patch_failure env st.tilePSOMap st.prs
      ci ai n hname hval hfresh hpatch
    simpa [addPipelineState, addTilePipelineState, psoMapOf] using h
  | rayTracing =>
    have h := serializePSOStep_patch_failure env st.rayTracingPSOMap st.prs
      ci ai n hname hval hfresh hpatch
    simpa [addPipelineState, addRayTracingPipelineState, psoMapOf] using h

/-- Counterexample to C1 as stated: with a patcher that fails for the
requested backend, `add_graphics_pipeline` on an empty writer returns
`false`, yet the writer's pipeline map still contains an entry under the
pipeline's name `P` — the state is NOT as if the call never happened. -/
theorem c1_counterexample :
    (addGraphicsPipelineState cxArchiverEnv WriterState.empty cxPipelineCI
      cxArchiveInfo).1 = false ∧
    (alFind (addGraphicsPipelineState cxArchiverEnv WriterState.empty
      cxPipelineCI cxArchiveInfo).2.graphicsPSOMap "P").isSome = true := by
  constructor <;> decide

/-- Witness for the amended C1 at the compute pipeline kind. -/
theorem c1_witness :
    (addPipelineState PSOKind.compute cxArchiverEnv WriterState.empty
      cxPipelineCI cxArchiveInfo).1 = false ∧
    (alFind (psoMapOf PSOKind.compute
      (addPipelineState PSOKind.compute cxArchiverEnv WriterState.empty
        cxPipelineCI cxArchiveInfo).2) "P").isSome = true :=
  c1_patch_failure_keeps_entry PSOKind.compute cxArchiverEnv
    WriterState.empty cxPipelineCI cxArchiveInfo "P" rfl (by decide) rfl
    (fun h => by cases h) (by decide)

/-! ### Reader materializer theorems -/

theorem dirLookup_setCacheEntry (m : List (List Nat × NamedEntry))
    (name : List Nat) (c : Option Nat) (name' : List Nat) :
    dirLookup (setCacheEntry m name c) name' = dirLookup m name' := by
  induction m with
  | nil => rfl
  | cons p m ih =>
    show dirLookup
      ((if p.1 = name then (p.1, { p.2 with cache := c }) else p) ::
        setCacheEntry m name c) name' = dirLookup (p :: m) name'
    by_cases h1 : p.1 = name
    · rw [if_pos h1]
      by_cases h2 : p.1 = name'
      · simp [dirLookup, alFind, h2]
      · simp only [dirLookup, alFind, if_neg h2]
        exact ih
    · rw [if_neg h1]
      by_cases h2 : p.1 = name'
      · simp [dirLookup, alFind, h2]
      · simp only [dirLookup, alFind, if_neg h2]
        exact ih

/-- C8: an unpack request carrying at least one override flag (graphics and
tile pipelines, render passes) neither consults nor writes the
weak-reference cache of its kind: the result is invariant under any cached
entry for the name, and the directory-and-cache map of that kind is
unchanged by the call (so a previously cached entry survives untouched and
the produced object is not installed). -/
theorem c8_override_flags_skip_cache (env : ReaderEnv) (data : List Nat)
    (st : ReaderState) (gInfo tInfo : PSOUnpackInfo) (rInfo : RPUnpackInfo)
    (c : Option Nat)
    (hg : gInfo.overrideFlags ≠ 0) (ht : tInfo.overrideFlags ≠ 0)
    (hr : rInfo.attachmentOverrides ≠ []) :
    (unpackGraphicsPSO env data st gInfo).2.graphicsMap = st.graphicsMap ∧
    (unpackGraphicsPSO env data
        { st with graphicsMap := setCacheEntry st.graphicsMap gInfo.name c }
        gInfo).1 =
      (unpackGraphicsPSO env data st gInfo).1 ∧
    (unpackTilePSO env data st tInfo).2.tileMap = st.tileMap ∧
    (unpackTilePSO env data
        { st with tileMap := setCacheEntry st.tileMap tInfo.name c }
        tInfo).1 =
      (unpackTilePSO env data st tInfo).1 ∧
    (unpackRenderPass env data st rInfo).2.rpMap = st.rpMap ∧
    (unpackRenderPass env data
        { st with rpMap := setCacheEntry st.rpMap rInfo.name c } rInfo).1 =
      (unpackRenderPass env data st rInfo).1 := by
  refine ⟨?_, ?_, ?_, ?_, ?_, ?_⟩
  · simp [unpackGraphicsPSO, hg]
  · simp [unpackGraphicsPSO, hg, dirLookup_setCacheEntry]
  · simp [unpackTilePSO, ht]
  · simp [unpackTilePSO, ht, dirLookup_setCacheEntry]
  · simp only [unpackRenderPass, unpackRenderPassCore, hr]
    simp [hr]
    rcases hd : dirLookup st.rpMap rInfo.name with _ | os <;> simp [hd]
    rcases hp : env.parseRP os with _ | desc <;> simp [hp]
  · simp only [unpackRenderPass, unpackRenderPassCore, hr,
      dirLookup_setCacheEntry]
    simp [hr, dirLookup_setCacheEntry]
    rcases hd : dirLookup st.rpMap rInfo.name with _ | os <;> simp [hd]
    rcases hp : env.parseRP os with _ | desc <;> simp [hp]

/-- Witness for C8 at a reader state with a live cached entry under every
directory and requests carrying override flags. -/
theorem c8_witness :
    wPSOInfo.overrideFlags ≠ 0 ∧ wRPInfo.attachmentOverrides ≠ [] ∧
    ((unpackGraphicsPSO wReaderEnv [] wReaderState wPSOInfo).2.graphicsMap =
        wReaderState.graphicsMap ∧
      (unpackGraphicsPSO wReaderEnv [] wReaderStateG wPSOInfo).1 =
        (unpackGraphicsPSO wReaderEnv [] wReaderState wPSOInfo).1 ∧
      (unpackTilePSO wReaderEnv [] wReaderState wPSOInfo).2.tileMap =
        wReaderState.tileMap ∧
      (unpackTilePSO wReaderEnv [] wReaderStateT wPSOInfo).1 =
        (unpackTilePSO wReaderEnv [] wReaderState wPSOInfo).1 ∧
      (unpackRenderPass wReaderEnv [] wReaderState wRPInfo).2.rpMap =
        wReaderState.rpMap ∧
      (unpackRenderPass wReaderEnv [] wReaderStateR wRPInfo).1 =
        (unpackRenderPass wReaderEnv [] wReaderState wRPInfo).1) :=
  ⟨by decide, by decide,
    c8_override_flags_skip_cache wReaderEnv [] wReaderState wPSOInfo
      wPSOInfo wRPInfo (some 99) (by decide) (by decide) (by decide)⟩

/-! ### Reader construction theorems -/

/-- C7: the bounds check of `ReadNamedResources` compares the entry's data
range against the archive size with a 32-bit `Uint32` addition: at the
failing input `wrapBody` (data offset `0xFFFFFFFF`, data size 2, archive
size 100) the mathematical end of the range exceeds the archive size, the
32-bit sum wraps to 1, the check passes and construction succeeds instead of
failing with `corrupt-archive`. -/
theorem c7_offset_check_wraps_at_32_bits :
    readNamedResources 100 wrapBody = .ok [⟨[], 4294967295, 2⟩] ∧
    4294967295 + 2 > 100 ∧
    (4294967295 + 2) % u32Mod ≤ 100 :=
  ⟨rfl, by decide, by decide⟩

theorem processOneChunk_isErr_eq (data : List Nat) (devType : DeviceType)
    (sz off : Nat) (st : ReaderState) (t : Nat) :
    isErrB (processOneChunk data devType ⟨t, sz, off⟩ st) =
      chunkBodyFailsB data ⟨t, sz, off⟩ := by
  rcases t with _|_|_|_|_|_|_|_|_|t
  · rfl
  · simp only [processOneChunk, chunkBodyFailsB, readDebugInfoChunk]
    rcases hb : readBytes data off sz with _ | body
    · simp [isErrB]
    · simp only []
      rcases hs : serReadSchema [SType.u32, SType.str] body with _ | p
      · simp [isErrB]
      · split <;> simp_all [isErrB]
  · simp only [processOneChunk, chunkBodyFailsB]
    rcases hb : readBytes data off sz with _ | body
    · simp [isErrB]
    · rcases hr : readNamedResources data.length body with e | es <;>
        simp [hr, isErrB, Except.map]
  · simp only [processOneChunk, chunkBodyFailsB]
    rcases hb : readBytes data off sz with _ | body
    · simp [isErrB]
    · rcases hr : readNamedResources data.length body with e | es <;>
        simp [hr, isErrB, Except.map]
  · simp only [processOneChunk, chunkBodyFailsB]
    rcases hb : readBytes data off sz with _ | body
    · simp [isErrB]
    · rcases hr : readNamedResources data.length body with e | es <;>
        simp [hr, isErrB, Except.map]
  · simp only [processOneChunk, chunkBodyFailsB]
    rcases hb : readBytes data off sz with _ | body
    · simp [isErrB]
    · rcases hr : readNamedResources data.length body with e | es <;>
        simp [hr, isErrB, Except.map]
  · simp only [processOneChunk, chunkBodyFailsB]
    rcases hb : readBytes data off sz with _ | body
    · simp [isErrB]
    · rcases hr : readNamedResources data.length body with e | es <;>
        simp [hr, isErrB, Except.map]
  · simp only [processOneChunk, chunkBodyFailsB]
    rcases hb : readBytes data off sz with _ | body
    · simp [isErrB]
    · rcases hr : readNamedResources data.length body with e | es <;>
        simp [hr, isErrB, Except.map]
  · simp only [processOneChunk, chunkBodyFailsB, readIndexedResources]
    rcases hb : readBytes data off shadersDataHeaderSize with _ | bs
    · simp [isErrB]
    · rcases hl : loadDeviceSpecificData data st.baseOffsets devType
          ((parseShadersHeader bs).deviceSize devType)
          ((parseShadersHeader bs).deviceOffset devType) with _ | payload <;>
        simp [hl, isErrB]
  · rfl

theorem processChunks_isErr_iff (data : List Nat) (devType : DeviceType) :
    ∀ (chunks : List ChunkHeader) (processed : List Nat) (st : ReaderState),
    isErrB (processChunks data devType chunks processed st) = true ↔
      chunksFail data chunks processed := by
  intro chunks
  induction chunks with
  | nil => intro processed st; simp [processChunks, isErrB, chunksFail]
  | cons ch rest ih =>
    intro processed st
    rcases ch with ⟨t, sz, off⟩
    simp only [processChunks]
    by_cases hdup : t ∈ processed
    · simp only [hdup, if_pos, isErrB, chunksFail]
      simpa using Or.inl hdup
    · rw [if_neg (by simpa using hdup)]
      cases hp : processOneChunk data devType ⟨t, sz, off⟩ st with
      | error e =>
        have hfail : chunkBodyFailsB data ⟨t, sz, off⟩ = true := by
          have h := processOneChunk_isErr_eq data devType sz off st t
          rw [hp] at h
          exact h.symm
        simp only [isErrB, chunksFail]
        constructor
        · intro _
          exact Or.inr (Or.inr (Or.inl hfail))
        · intro _
          trivial
      | ok st' =>
        have hok : chunkBodyFailsB data ⟨t, sz, off⟩ = false := by
          have h := processOneChunk_isErr_eq data devType sz off st t
          rw [hp] at h
          exact h.symm
        rw [ih (t :: processed) st']
        simp [chunksFail, hdup, hok]
        intro hfalse
        -- the unrecognized-kind disjunct: an unrecognized kind always has a
        -- failing body, contradicting hok
        exfalso
        have : chunkBodyFailsB data ⟨t, sz, off⟩ = true := by
          simp only [chunkBodyFailsB]
          rcases t with _|_|_|_|_|_|_|_|_|t <;>
            simp_all [recognizedChunkKind]
        rw [this] at hok
        cases hok

/-- C6: corrected failure characterization of reader construction: the
constructor fails exactly when the header read fails, the magic or version
mismatches, the chunk-directory read fails, or some chunk repeats an
already-processed kind, carries a kind the switch does not recognize, or has
a body that fails to read or parse (`corrupt-archive`); the four conditions
of the claim are sufficient but not exhaustive. -/
theorem c6_construct_failure_characterization (devType : DeviceType)
    (data : List Nat) :
    isErrB (constructArchive devType data) = true ↔
      constructFailureSpec data := by
  unfold constructArchive constructFailureSpec
  cases hh : parseArchiveHeader data with
  | none => simp [isErrB]
  | some hdr =>
    simp only [Option.some.injEq, reduceCtorEq, false_or]
    by_cases hm : hdr.magic ≠ headerMagicNumber
    · simp [hm, isErrB]
    · rw [if_neg hm]
      by_cases hv : hdr.version ≠ headerVersion
      · simp [hm, hv, isErrB]
      · rw [if_neg hv]
        cases hc : parseChunkHeaders data hdr.numChunks with
        | none => simp [hm, hv, hc, isErrB]
        | some chunks =>
          rw [processChunks_isErr_iff data devType chunks []
            (initialReaderState hdr)]
          simp [hm, hv, hc]

/-- Counterexample to C6 as stated: a 72-byte source with correct magic and
version, distinct and recognized chunk kinds — none of the four claimed
conditions holds — on which reader construction nevertheless fails (the
resource-signature chunk's entry points past the end of the archive). -/
theorem c6_counterexample :
    isErrB (constructArchive DeviceType.OpenGL exArchiveBytes) = true ∧
    claimedFailureConditions exArchiveBytes = false := by
  constructor <;> decide

end DiligentCore
